import Mathlib

/-!
# pgload (`pg.c`): a verification development

A shallow embedding of `src/pgload-0.1/pg.c`, the Stata plugin that streams the
result of a PostgreSQL query into the Stata workspace, and theorems about it.

Conventions of the embedding:

* C `int` / `long` values are `Int`; division is C's truncating division
  (`Int.tdiv`).
* A C string is a `List Char`, one `Char` per C `char` (byte); `strlen` is
  `List.length`.  Text that the program only formats and hands on (SQL text,
  macro values, diagnostics) is a Lean `String`.
* The global variables of `pg.c` are the fields of `Globals`; the database
  server, the C library's `strptime` and the Stata host are parameters
  (`Env`); what the program does to them is recorded in `World`.
* Where an input can lead the C text into undefined behaviour (a `strcat` past
  the end of its buffer, a `strncpy` from NULL) the step is recorded in
  `World.faults`.
-/

namespace PgStata

/-! ## Date conversion (`pgstata_tm2statadate`) -/

/-- The fields of C's `struct tm` that `pgstata_tm2statadate` reads
(`tm_year` is the year minus 1900, `tm_mon` is 0-based, `tm_mday` is 1-based). -/
structure tm where
  tm_year : Int
  tm_mon : Int
  tm_mday : Int
deriving DecidableEq, Repr

/-- `static const int dayoffset[12]` of `pgstata_tm2statadate`. -/
def dayoffset : List Int := [306, 337, 0, 31, 61, 92, 122, 153, 184, 214, 245, 275]

/-- `pgstata_tm2statadate` (pg.c 237-266).  Reading `dayoffset` outside
`0..11` is undefined in C; the embedding reads `0` there.  The arithmetic is on
unbounded integers: for the years a date text can name (four digits) the C
`int` and `long` values stay far inside their range. -/
def pgstata_tm2statadate (t : tm) : Int :=
  let year := t.tm_year + 100
  let year := if t.tm_mon < 2 then year - 1 else year
  let days := year * 365 + Int.tdiv year 4 - Int.tdiv year 100
                + Int.tdiv (Int.tdiv year 100 + 2) 4
  let days := days + (dayoffset.getD t.tm_mon.toNat 0 + t.tm_mday - 1)
  days - 58379

/-! ### The proleptic Gregorian calendar (reference definitions) -/

/-- Leap years of the proleptic Gregorian calendar. -/
def isLeapYear (y : Int) : Bool :=
  decide (y % 4 = 0) && (decide (y % 100 ≠ 0) || decide (y % 400 = 0))

/-- Length of month `m` (0-based) of year `y`. -/
def daysInMonth (y m : Int) : Int :=
  if m = 1 then (if isLeapYear y then 29 else 28)
  else if m = 3 ∨ m = 5 ∨ m = 8 ∨ m = 10 then 30
  else 31

/-- A `struct tm` that holds a date of the calendar. -/
def ValidDate (t : tm) : Prop :=
  0 ≤ t.tm_mon ∧ t.tm_mon < 12 ∧ 1 ≤ t.tm_mday ∧
    t.tm_mday ≤ daysInMonth (t.tm_year + 1900) t.tm_mon

instance (t : tm) : Decidable (ValidDate t) := by
  unfold ValidDate; infer_instance

/-- The day after `t`. -/
def nextDay (t : tm) : tm :=
  if t.tm_mday < daysInMonth (t.tm_year + 1900) t.tm_mon then
    { t with tm_mday := t.tm_mday + 1 }
  else if t.tm_mon < 11 then
    { t with tm_mon := t.tm_mon + 1, tm_mday := 1 }
  else
    { tm_year := t.tm_year + 1, tm_mon := 0, tm_mday := 1 }

/-- Number of leap years among the years `1 .. y - 1` (floor arithmetic, so
the count is relative for `y ≤ 0`). -/
def leapYearsBefore (y : Int) : Int :=
  (y - 1) / 4 - (y - 1) / 100 + (y - 1) / 400

/-- Days of a common year that precede month `m` (0-based). -/
def daysBeforeMonth : List Int := [0, 31, 59, 90, 120, 151, 181, 212, 243, 273, 304, 334]

/-- Signed number of days from 1 January 1960 to the date `t`, counted
directly: whole years, then whole months, then days. -/
def daysSince1960 (t : tm) : Int :=
  let y := t.tm_year + 1900
  365 * (y - 1960) + (leapYearsBefore y - leapYearsBefore 1960)
    + daysBeforeMonth.getD t.tm_mon.toNat 0
    + (if isLeapYear y ∧ 2 ≤ t.tm_mon then 1 else 0)
    + (t.tm_mday - 1)

/-- The day before `t`. -/
def prevDay (t : tm) : tm :=
  if 1 < t.tm_mday then
    { t with tm_mday := t.tm_mday - 1 }
  else if 0 < t.tm_mon then
    { t with tm_mon := t.tm_mon - 1,
             tm_mday := daysInMonth (t.tm_year + 1900) (t.tm_mon - 1) }
  else
    { tm_year := t.tm_year - 1, tm_mon := 11, tm_mday := 31 }

/-- 1 January 1960 as a `struct tm`. -/
def epoch1960 : tm := ⟨60, 0, 1⟩

/-- The matching inverse of the date converter named by the specification
(day count relative to 1 Jan 1960 → calendar date).  It is not part of
`pg.c`; it is defined here by what it means: the date reached from
1 January 1960 by stepping `n` days forward (backward for negative `n`). -/
def statadate2tm (n : Int) : tm :=
  if 0 ≤ n then nextDay^[n.toNat] epoch1960 else prevDay^[(-n).toNat] epoch1960

/-- The date is on or after `y`-`m+1`-`d` (`m` 0-based, `y` the calendar year). -/
def OnOrAfter (y m d : Int) (t : tm) : Prop :=
  y < t.tm_year + 1900 ∨
    (y = t.tm_year + 1900 ∧ (m < t.tm_mon ∨ (m = t.tm_mon ∧ d ≤ t.tm_mday)))

instance (y m d : Int) (t : tm) : Decidable (OnOrAfter y m d t) := by
  unfold OnOrAfter; infer_instance

/-! ## The outside world: libpq, libc and the Stata plugin interface -/

/-- A C string: one `Char` per C `char`, without the terminating NUL. -/
abbrev CString := List Char

/-! Type OIDs of `catalog/pg_type.h` and `VARHDRSZ` of `postgres.h` (PostgreSQL
headers, not part of the repository; the values are PostgreSQL's).  An `Oid` is
an unsigned int, here a `Nat`. -/

def BOOLOID : Nat := 16
def INT8OID : Nat := 20
def INT2OID : Nat := 21
def INT4OID : Nat := 23
def TEXTOID : Nat := 25
def FLOAT4OID : Nat := 700
def FLOAT8OID : Nat := 701
def CASHOID : Nat := 790
def BPCHAROID : Nat := 1042
def VARCHAROID : Nat := 1043
def DATEOID : Nat := 1082
def TIMEOID : Nat := 1083
def TIMESTAMPOID : Nat := 1114
def TIMESTAMPTZOID : Nat := 1184
def INTERVALOID : Nat := 1186
def TIMETZOID : Nat := 1266
def NUMERICOID : Nat := 1700

def VARHDRSZ : Int := 4

/-- `PGSTATA_CURSOR_SLURP_ROWS`. -/
def PGSTATA_CURSOR_SLURP_ROWS : Int := 10000

/-! Return codes (`enum _pgstata_rc`). -/

def pgstata_ok : Int := 0
def pgstata_finished : Int := 1
def pgstata_usage_error : Int := 198
def pgstata_db_error : Int := 200

/-- libpq's `ExecStatusType`. -/
inductive ExecStatusType where
  | PGRES_EMPTY_QUERY
  | PGRES_COMMAND_OK
  | PGRES_TUPLES_OK
  | PGRES_COPY_OUT
  | PGRES_COPY_IN
  | PGRES_BAD_RESPONSE
  | PGRES_NONFATAL_ERROR
  | PGRES_FATAL_ERROR
deriving DecidableEq, Repr

/-- libpq's `ConnStatusType`, as far as `PQstatus` is compared in `pg.c`. -/
inductive ConnStatusType where
  | CONNECTION_OK
  | CONNECTION_BAD
deriving DecidableEq, Repr

/-- What libpq reports about one result column
(`PQfname`, `PQftype`, `PQfsize`, `PQfmod`). -/
structure Field where
  fname : String
  ftype : Nat
  fsize : Int
  fmod : Int
deriving DecidableEq, Repr

/-- A `PGresult`: status, error text, column descriptions and the rows, each
cell a nullable text value. -/
structure PGresult where
  status : ExecStatusType
  errorMessage : String
  fields : List Field
  tuples : List (List (Option CString))
deriving DecidableEq, Repr

/-- A live `PGconn` handle with what `PQstatus` / `PQerrorMessage` report. -/
structure PGconn where
  status : ConnStatusType
  errorMessage : String
deriving DecidableEq, Repr

/-- The value handed to `SF_vstore` (a C `double`).  The conversions of the C
library are kept symbolic: `ofAtol s` is `atol(s)`, `ofStrtold s` is
`strtold(s, NULL)`. -/
inductive HostValue where
  | ofAtol (s : CString)
  | ofStrtold (s : CString)
  | ofDate (days : Int)
  | ofBool (b : Bool)
deriving DecidableEq, Repr

/-- A store into the Stata workspace: `SF_vstore(var, obs, value)` or
`SF_sstore(var, obs, string)`. -/
inductive HostCall where
  | SF_vstore (var obs : Int) (v : HostValue)
  | SF_sstore (var obs : Int) (s : CString)
deriving DecidableEq, Repr

/-- Text shown to the user: `SF_error(s)` or `SF_display(s)`. -/
inductive Diag where
  | SF_error (s : String)
  | SF_display (s : String)
deriving DecidableEq, Repr

/-- A step at which the C text leaves the program's behaviour undefined. -/
inductive Fault where
  /-- A write past the end of the named `malloc`ed buffer. -/
  | overrun (buffer : String)
  /-- A read through the NULL pointer held by the named variable. -/
  | null_read (pointer : String)
deriving DecidableEq, Repr

/-- The collaborators whose answers `pg.c` does not decide. -/
structure Env where
  /-- `PQconnectdb(conninfo)`: the new handle (`none` for a NULL pointer). -/
  PQconnectdb : String → Option PGconn
  /-- The server's answer to a statement, given the statements sent before. -/
  reply : List String → String → PGresult
  /-- `strptime(s, "%Y-%m-%d", &tvalue)`: `none` for a NULL return, else the
  date fields it filled into the zeroed `tvalue`. -/
  strptime : CString → Option tm
  /-- Return code of a workspace store, given the stores made before. -/
  store_rc : List HostCall → HostCall → Int

/-- The global variables of `pg.c` (pg.c 117-127). -/
structure Globals where
  pgstata_conn : Option PGconn
  pgstata_res : Option PGresult
  pgstata_in_transaction : Int
  pgstata_num_obs_loaded : Int
  pgstata_num_obs : Int
  column_oids : Option (List Nat)
  column_widths : Option (List Int)
  column_mods : Option (List Int)
deriving DecidableEq, Repr

/-- The globals of `pg.c` together with the record of what the plugin has done
to the database and to Stata. -/
structure World where
  /-- The global variables. -/
  g : Globals
  /-- Statements passed to `PQexec` on a live connection, oldest first. -/
  sent : List String
  /-- `SF_nobs()`: observations in the Stata workspace. -/
  nobs : Int
  /-- Workspace stores, oldest first. -/
  stores : List HostCall
  /-- `SF_macro_save(name, value)` calls, oldest first. -/
  saved : List (String × String)
  /-- `SF_error` / `SF_display` output, oldest first. -/
  diag : List Diag
  /-- The faults met, oldest first.  From the first fault on the C text no
  longer determines what the program does: the rest of the record then only
  follows the text as if the fault had done no harm, and says nothing about a
  real run. -/
  faults : List Fault
deriving DecidableEq, Repr

/-- The initial values of the globals (all pointers NULL, all counters 0). -/
def Globals.initial : Globals :=
  { pgstata_conn := none, pgstata_res := none, pgstata_in_transaction := 0,
    pgstata_num_obs_loaded := 0, pgstata_num_obs := 0,
    column_oids := none, column_widths := none, column_mods := none }

/-- The plugin freshly loaded: initial globals, nothing sent, stored or shown. -/
def World.initial : World :=
  { g := Globals.initial, sent := [], nobs := 0, stores := [], saved := [], diag := [],
    faults := [] }

def SF_error (w : World) (s : String) : World :=
  { w with diag := w.diag ++ [Diag.SF_error s] }

def SF_display (w : World) (s : String) : World :=
  { w with diag := w.diag ++ [Diag.SF_display s] }

/-- `if (debug_mode) SF_display(s);` -/
def debug_display (debug_mode : Bool) (w : World) (s : String) : World :=
  if debug_mode then SF_display w s else w

def SF_macro_save (w : World) (name value : String) : World :=
  { w with saved := w.saved ++ [(name, value)] }

/-- The program meets the fault `f`. -/
def fault (w : World) (f : Fault) : World :=
  { w with faults := w.faults ++ [f] }

/-- A write has left the text `s` in the buffer `buffer` of `cap` bytes: the
text and its terminating NUL take `s.length + 1` bytes (one `Char` per C
`char`), and a longer write is an overrun. -/
def check_fits (w : World) (buffer : String) (cap : Nat) (s : String) : World :=
  if s.length + 1 ≤ cap then w else fault w (Fault.overrun buffer)

/-- `strcat(dst, src)` into the buffer `buffer` of `cap` bytes, no length check. -/
def strcat (w : World) (buffer : String) (cap : Nat) (dst src : String) : String × World :=
  (dst ++ src, check_fits w buffer cap (dst ++ src))

/-- An `Oid` (a 32-bit `unsigned int`) as `printf` shows it under `%d`. -/
def oid_as_int (o : Nat) : Int :=
  if o % 4294967296 < 2147483648 then ((o % 4294967296 : Nat) : Int)
  else ((o % 4294967296 : Nat) : Int) - 4294967296

/-- `PQstatus(conn)`; a NULL handle reports `CONNECTION_BAD`. -/
def PQstatus (c : Option PGconn) : ConnStatusType :=
  match c with
  | some c => c.status
  | none => ConnStatusType.CONNECTION_BAD

/-- `PQerrorMessage(conn)`. -/
def PQerrorMessage (c : Option PGconn) : String :=
  match c with
  | some c => c.errorMessage
  | none => "connection pointer is NULL\n"

/-- What libpq reports about a NULL `PGresult`:
`PQresultStatus(NULL) = PGRES_FATAL_ERROR`, no columns and no rows. -/
def PGresult.null : PGresult :=
  { status := ExecStatusType.PGRES_FATAL_ERROR, errorMessage := "", fields := [], tuples := [] }

/-- `PQexec(pgstata_conn, sql)`.  On a NULL handle libpq sends nothing and
returns NULL. -/
def PQexec (E : Env) (w : World) (sql : String) : PGresult × World :=
  match w.g.pgstata_conn with
  | none => (PGresult.null, w)
  | some _ => (E.reply w.sent sql, { w with sent := w.sent ++ [sql] })

/-- `PQgetisnull` and `PQgetvalue` in one: the text of cell `(i, j)`, `none`
for a null cell (libpq also reports a cell outside the result as null). -/
def PGresult.cell (res : PGresult) (i j : Nat) : Option CString :=
  (res.tuples.getD i []).getD j none

/-- A workspace store: the call is recorded and the host's return code comes back. -/
def host_store (E : Env) (w : World) (c : HostCall) : Int × World :=
  (E.store_rc w.stores c, { w with stores := w.stores ++ [c] })

/-- `strncasecmp(a, b, n) == 0`. -/
def strncasecmp_eq (a b : List Char) (n : Nat) : Bool :=
  (a.take n).map Char.toLower == (b.take n).map Char.toLower

/-- The `USAGE_CHECK` macro's condition (`MAX_ARGS = -1` means no upper limit). -/
def usage_bad (arg_count min_args max_args : Int) : Bool :=
  decide (arg_count < min_args) || (decide (max_args > -1) && decide (arg_count > max_args))

/-- The "Debugging mode" block: `argv[idx]`, when present, starts with "debug"
in any letter case. -/
def debug_arg (argv : List String) (idx : Nat) : Bool :=
  match argv.get? idx with
  | some a => strncasecmp_eq a.toList "debug".toList 5
  | none => false

/-- Output of `snprintf(buf, n, ...)`: at most `n - 1` characters are kept. -/
def snprintf (n : Nat) (s : String) : String :=
  String.mk (s.toList.take (n - 1))

/-! ## The plugin (`pg.c`) -/

/-- `pgstata_cleanup` (pg.c 139-177). -/
def pgstata_cleanup (E : Env) (debug_mode : Bool) (w : World) : World :=
  let w := { w with g := { w.g with column_oids := none, column_widths := none,
                                    column_mods := none } }
  let w :=
    if w.g.pgstata_in_transaction ≠ 0 then
      let w := debug_display debug_mode w "DEBUG: cleanup(): rolling back transaction\n"
      let rb_sql := "ROLLBACK TRANSACTION\n"
      let w := debug_display debug_mode w rb_sql
      let r := PQexec E w rb_sql
      let w := if r.1.status ≠ ExecStatusType.PGRES_COMMAND_OK
        then SF_error r.2 r.1.errorMessage else r.2
      { w with g := { w.g with pgstata_in_transaction := 0 } }
    else w
  if w.g.pgstata_res.isSome then
    let w := debug_display debug_mode w "DEBUG: cleanup(): freeing query result structs\n"
    { w with g := { w.g with pgstata_res := none } }
  else w

/-- `pgstata_teardown` (pg.c 185-195). -/
def pgstata_teardown (E : Env) (debug_mode : Bool) (w : World) : World :=
  let w := pgstata_cleanup E debug_mode w
  if w.g.pgstata_conn.isSome then
    let w := debug_display debug_mode w "DEBUG: teardown(): ending connection\n"
    { w with g := { w.g with pgstata_conn := none } }
  else w

/-- The statement `pgstata_typoid2name` builds in `tmpbuf` (pg.c 211-213). -/
def typname_sql (typoid : Nat) : String :=
  snprintf 255
    ("SELECT typname FROM pg_type WHERE oid=" ++ toString (oid_as_int typoid) ++ " LIMIT 1\n")

/-- `pgstata_typoid2name` (pg.c 202-227): the type name written to `buf`.
`PQgetvalue(res, 0, 0)` is the text of the first cell (empty for a null cell)
when the answer has a row and a column, and NULL otherwise; `strncpy` from
NULL is a fault. -/
def pgstata_typoid2name (E : Env) (typoid : Nat) (n : Nat) (debug_mode : Bool)
    (w : World) : String × World :=
  let tmpbuf := typname_sql typoid
  let w := debug_display debug_mode w tmpbuf
  let r := PQexec E w tmpbuf
  if r.1.status ≠ ExecStatusType.PGRES_TUPLES_OK then
    let w := SF_error r.2 "Internal error: type-name lookup failed."
    let w := SF_error w r.1.errorMessage
    (String.mk ("unknown".toList.take n), w)
  else if 0 < r.1.tuples.length ∧ 0 < r.1.fields.length then
    (String.mk (((r.1.cell 0 0).getD []).take n), r.2)
  else
    ("", fault r.2 (Fault.null_read "tmpval"))

/-- The `PGCONN_CHECK` macro's failure branch. -/
def pgconn_check_fail (E : Env) (debug_mode : Bool) (w : World) : Int × World :=
  let w := SF_error w "Database error: connection failed.\n"
  let w := SF_error w (PQerrorMessage w.g.pgstata_conn)
  (pgstata_db_error, pgstata_teardown E debug_mode w)

/-- The `PGRESULT_CHECK` macro's failure branch, for a local result. -/
def pgresult_check_fail (E : Env) (debug_mode : Bool) (res : PGresult) (w : World) :
    Int × World :=
  let w := SF_error w res.errorMessage
  (pgstata_db_error, pgstata_cleanup E debug_mode w)

/-- `pgstata_connect` (pg.c 272-295). -/
def pgstata_connect (E : Env) (argv : List String) (w : World) : Int × World :=
  if usage_bad argv.length 1 2 then
    (pgstata_usage_error, SF_error w "usage: connect CONNINFO [\"debug\"]\n")
  else
    let conninfo := argv.getD 0 ""
    let debug_mode := debug_arg argv 1
    let w :=
      if w.g.pgstata_conn.isSome then
        pgstata_teardown E debug_mode
          (SF_error w "already connected: closing existing connection first\n")
      else w
    let w := { w with g := { w.g with pgstata_conn := E.PQconnectdb conninfo } }
    if PQstatus w.g.pgstata_conn ≠ ConnStatusType.CONNECTION_OK then
      pgconn_check_fail E debug_mode w
    else
      (pgstata_ok, debug_display debug_mode w "DEBUG: connected successfully\n")

/-- `pgstata_disconnect` (pg.c 297-311). -/
def pgstata_disconnect (E : Env) (argv : List String) (w : World) : Int × World :=
  if usage_bad argv.length 0 1 then
    (pgstata_usage_error, SF_error w "usage: disconnect [\"debug\"]\n")
  else
    let debug_mode := debug_arg argv 0
    (pgstata_ok, pgstata_teardown E debug_mode w)
/-! ### Query preparation (`pgstata_prepare`) -/

/-- What one pass through the `switch (ftype)` of `pgstata_prepare` decides for
a column (pg.c 410-481). -/
structure SwitchResult where
  /-- The text appended to `stata_mac_types`. -/
  type_entry : String
  /-- `statafmt_tmp` after the switch (empty unless a date format was set). -/
  statafmt_tmp : String
  /-- `ftype` after the switch (the wide-string fall-through rewrites it). -/
  ftype : Nat
  /-- The `default:` group was taken (type name looked up, warning issued). -/
  partially_supported : Bool
deriving DecidableEq, Repr

/-- The `switch (ftype)` of `pgstata_prepare` (pg.c 410-481). -/
def prepare_switch (ftype : Nat) (fmod : Int) : SwitchResult :=
  if ftype = BOOLOID then
    { type_entry := "byte ", statafmt_tmp := "", ftype := ftype, partially_supported := false }
  else if ftype = INT2OID then
    { type_entry := "long ", statafmt_tmp := "", ftype := ftype, partially_supported := false }
  else if ftype = INT4OID ∨ ftype = INT8OID ∨ ftype = FLOAT4OID ∨ ftype = FLOAT8OID
      ∨ ftype = NUMERICOID then
    { type_entry := "double ", statafmt_tmp := "", ftype := ftype, partially_supported := false }
  else if (ftype = BPCHAROID ∨ ftype = VARCHAROID)
      ∧ (fmod - VARHDRSZ < 245 ∧ fmod - VARHDRSZ > 0) then
    { type_entry := snprintf 32 ("str" ++ toString (fmod - VARHDRSZ) ++ " "),
      statafmt_tmp := "", ftype := ftype, partially_supported := false }
  else if ftype = BPCHAROID ∨ ftype = VARCHAROID ∨ ftype = TEXTOID then
    -- FALLTHRU: `ftype = TEXTOID;`
    { type_entry := "str244 ", statafmt_tmp := "", ftype := TEXTOID,
      partially_supported := false }
  else if ftype = DATEOID ∨ ftype = TIMESTAMPOID ∨ ftype = TIMESTAMPTZOID then
    { type_entry := "long ", statafmt_tmp := "%d", ftype := ftype, partially_supported := false }
  else
    { type_entry := "str244 ", statafmt_tmp := "", ftype := ftype, partially_supported := true }

/-- The state carried round the column loop of `pgstata_prepare`. -/
structure PrepareLoop where
  w : World
  stata_mac_vars : String
  stata_mac_types : String
  stata_mac_fmts : String
  column_widths : List Int
  column_oids : List Nat
  column_mods : List Int

/-- One iteration of `for (i=0; i<num_vars; ++i)` in `pgstata_prepare`
(pg.c 398-502) for the column described by `f`.  The three strings live in
buffers of `num_vars * 33`, `num_vars * 12` and `num_vars * 12` bytes
(pg.c 388-390) and are extended by `strcat`. -/
def prepare_column (E : Env) (debug_mode : Bool) (num_vars : Nat) (a : PrepareLoop)
    (f : Field) : PrepareLoop :=
  let v := strcat a.w "stata_mac_vars" (num_vars * 33) a.stata_mac_vars f.fname
  let v := strcat v.2 "stata_mac_vars" (num_vars * 33) v.1 " "
  let s := prepare_switch f.ftype f.fmod
  let w :=
    if s.partially_supported then
      let r := pgstata_typoid2name E s.ftype 255 debug_mode v.2
      SF_error r.2 (snprintf 255 ("Type \"" ++ r.1 ++ "\" (column " ++ f.fname
        ++ ") is only partially supported: treating it as str244\n"))
    else v.2
  let t := strcat w "stata_mac_types" (num_vars * 12) a.stata_mac_types s.type_entry
  let m := strcat t.2 "stata_mac_fmts" (num_vars * 12) a.stata_mac_fmts
    (if s.statafmt_tmp ≠ "" then s.statafmt_tmp else "default")
  let m := strcat m.2 "stata_mac_fmts" (num_vars * 12) m.1 " "
  let w := debug_display debug_mode m.2 (snprintf 255
    ("DEBUG: name=" ++ f.fname ++ " size=" ++ toString f.fsize ++ " oid="
      ++ toString (oid_as_int s.ftype) ++ " mod=" ++ toString f.fmod ++ "\n"))
  { w := w, stata_mac_vars := v.1, stata_mac_types := t.1,
    stata_mac_fmts := m.1,
    column_widths := a.column_widths ++ [f.fsize],
    column_oids := a.column_oids ++ [s.ftype],
    column_mods := a.column_mods ++ [f.fmod] }

/-- The whole column loop, from the three buffers just allocated and set to
the empty string (pg.c 385-393) and empty arrays. -/
def prepare_columns (E : Env) (debug_mode : Bool) (w : World) (fields : List Field) :
    PrepareLoop :=
  let w := check_fits w "stata_mac_vars" (fields.length * 33) ""
  let w := check_fits w "stata_mac_types" (fields.length * 12) ""
  let w := check_fits w "stata_mac_fmts" (fields.length * 12) ""
  fields.foldl (prepare_column E debug_mode fields.length)
    { w := w, stata_mac_vars := "", stata_mac_types := "", stata_mac_fmts := "",
      column_widths := [], column_oids := [], column_mods := [] }

/-- The statement that advances the cursor (pg.c 370-372 and 652-653). -/
def fetch_sql : String :=
  "FETCH FORWARD " ++ toString PGSTATA_CURSOR_SLURP_ROWS ++ " FROM pgstata_cursor\n"

/-- `pgstata_prepare` after its three statements succeeded: counters, column
loop and the four macros (pg.c 378-528). -/
def prepare_publish (E : Env) (debug_mode : Bool) (res : PGresult) (w : World) :
    Int × World :=
  let w := { w with g := { w.g with pgstata_num_obs_loaded := 0,
                                    pgstata_num_obs := res.tuples.length } }
  let a := prepare_columns E debug_mode w res.fields
  let w := { a.w with g := { a.w.g with column_widths := some a.column_widths,
                                        column_oids := some a.column_oids,
                                        column_mods := some a.column_mods } }
  let tmpbuf := toString w.g.pgstata_num_obs
  let w :=
    if debug_mode then
      SF_display (SF_display (SF_display (SF_display (SF_display (SF_display (SF_display
        (SF_display (SF_display w "DEBUG: _vars: ") a.stata_mac_vars) "\nDEBUG: _types: ")
        a.stata_mac_types) "\nDEBUG: _fmts: ") a.stata_mac_fmts) "\nDEBUG: _obs: ")
        tmpbuf) "\n"
    else w
  let w := SF_macro_save w "_obs" tmpbuf
  let w := SF_macro_save w "_vars" a.stata_mac_vars
  let w := SF_macro_save w "_types" a.stata_mac_types
  let w := SF_macro_save w "_fmts" a.stata_mac_fmts
  (pgstata_ok, w)

/-- `pgstata_prepare` (pg.c 321-529). -/
def pgstata_prepare (E : Env) (argv : List String) (w : World) : Int × World :=
  if usage_bad argv.length 1 2 then
    (pgstata_usage_error, SF_error w "usage: prepare SQLQUERY [\"debug\"]\n")
  else
    let sql_query := argv.getD 0 ""
    let debug_mode := debug_arg argv 1
    if PQstatus w.g.pgstata_conn ≠ ConnStatusType.CONNECTION_OK then
      pgconn_check_fail E debug_mode w
    else if w.nobs ≠ 0 then
      (4, SF_error w "no; data in memory would be lost\n")
    else
      let sql_begin_trans := "BEGIN TRANSACTION\n"
      let w := debug_display debug_mode w sql_begin_trans
      let r := PQexec E w sql_begin_trans
      if r.1.status ≠ ExecStatusType.PGRES_COMMAND_OK then
        pgresult_check_fail E debug_mode r.1 r.2
      else
        let w := { r.2 with g := { r.2.g with pgstata_in_transaction := 1 } }
        let tmpsql_buf := snprintf 1024
          ("DECLARE pgstata_cursor CURSOR FOR " ++ sql_query ++ "\n")
        let w := debug_display debug_mode w tmpsql_buf
        let r := PQexec E w tmpsql_buf
        if r.1.status ≠ ExecStatusType.PGRES_COMMAND_OK then
          pgresult_check_fail E debug_mode r.1 r.2
        else
          let tmpsql_buf := snprintf 1024 fetch_sql
          let w := debug_display debug_mode r.2 tmpsql_buf
          let r := PQexec E w tmpsql_buf
          -- `pgstata_res = PQexec(...)`, then `PGRESULT_CHECK(pgstata_res, ...)`
          let w := { r.2 with g := { r.2.g with pgstata_res := some r.1 } }
          if r.1.status ≠ ExecStatusType.PGRES_TUPLES_OK then
            let w := SF_error w r.1.errorMessage
            let w := { w with g := { w.g with pgstata_res := none } }
            (pgstata_db_error, pgstata_cleanup E debug_mode w)
          else
            prepare_publish E debug_mode r.1 w

/-! ### Row materialization (`pgstata_populate_next`) -/

/-- How the body of the cell loop ends for one non-null cell: the date did not
parse (`goto CLEANUP` with `rc` untouched), or a store returned `rc`. -/
inductive CellResult where
  | parse_failed
  | stored (rc : Int)
deriving DecidableEq, Repr

/-- The `switch (column_oids[j])` of `pgstata_populate_next` (pg.c 579-636) for
the non-null cell text `valuetmp`. -/
def populate_cell (E : Env) (oid : Nat) (stata_var stata_obs : Int) (valuetmp : CString)
    (w : World) : CellResult × World :=
  if oid = INT4OID ∨ oid = INT2OID ∨ oid = INT8OID then
    let r := host_store E w (HostCall.SF_vstore stata_var stata_obs (HostValue.ofAtol valuetmp))
    (CellResult.stored r.1, r.2)
  else if oid = FLOAT4OID ∨ oid = FLOAT8OID ∨ oid = NUMERICOID then
    let r := host_store E w
      (HostCall.SF_vstore stata_var stata_obs (HostValue.ofStrtold valuetmp))
    (CellResult.stored r.1, r.2)
  else if oid = BPCHAROID ∨ oid = VARCHAROID then
    let r := host_store E w (HostCall.SF_sstore stata_var stata_obs valuetmp)
    (CellResult.stored r.1, r.2)
  else if oid = DATEOID ∨ oid = TIMESTAMPOID ∨ oid = TIMESTAMPTZOID then
    match E.strptime valuetmp with
    | none =>
      (CellResult.parse_failed,
        SF_error w (snprintf 255 ("failed to parse date at (" ++ toString stata_obs ++ ", "
          ++ toString stata_var ++ ")")))
    | some tvalue =>
      let r := host_store E w
        (HostCall.SF_vstore stata_var stata_obs (HostValue.ofDate (pgstata_tm2statadate tvalue)))
      (CellResult.stored r.1, r.2)
  else if oid = BOOLOID then
    let r := host_store E w
      (HostCall.SF_vstore stata_var stata_obs
        (HostValue.ofBool (strncasecmp_eq valuetmp ['t'] 1)))
    (CellResult.stored r.1, r.2)
  else
    -- `strncpy(svalue, valuetmp, 244)` into the zeroed `char svalue[245]`
    let svalue := valuetmp.take 244
    let r := host_store E w (HostCall.SF_sstore stata_var stata_obs svalue)
    (CellResult.stored r.1, r.2)

/-- How the two nested loops end: they ran to the end, or left by one of the two
`goto CLEANUP` (with the value `rc` has at that point). -/
inductive LoopResult where
  | completed
  | parse_failed
  | store_failed (rc : Int)
deriving DecidableEq, Repr

/-- `column_oids[j]`; outside the array (undefined in C) the embedding reads 0. -/
def column_oid (g : Globals) (j : Nat) : Nat :=
  (g.column_oids.getD []).getD j 0

/-- The inner loop `for (j=0; j<nfields; ++j)` for row `i`, over the column
indices `js` still to visit (pg.c 573-644). -/
def populate_fields (E : Env) (res : PGresult) (i : Nat) (stata_obs : Int) :
    List Nat → World → LoopResult × World
  | [], w => (LoopResult.completed, w)
  | j :: js, w =>
    match res.cell i j with
    | none => populate_fields E res i stata_obs js w
    | some valuetmp =>
      let stata_var : Int := 1 + j
      let r := populate_cell E (column_oid w.g j) stata_var stata_obs valuetmp w
      match r.1 with
      | CellResult.parse_failed => (LoopResult.parse_failed, r.2)
      | CellResult.stored rc =>
        if rc ≠ 0 then
          (LoopResult.store_failed rc,
            SF_error r.2 (snprintf 255 ("failed to store oid:"
              ++ toString (oid_as_int (column_oid w.g j))
              ++ " at (" ++ toString stata_obs ++ "," ++ toString stata_var ++ ")\n")))
        else populate_fields E res i stata_obs js r.2

/-- The outer loop `for (i=0; i<ntups; ++i)` over the row indices `is` still to
visit (pg.c 571-645); `loaded` is `pgstata_num_obs_loaded`, which the loop does
not change. -/
def populate_rows (E : Env) (res : PGresult) (nfields : Nat) (loaded : Int) :
    List Nat → World → LoopResult × World
  | [], w => (LoopResult.completed, w)
  | i :: is, w =>
    let stata_obs : Int := 1 + i + loaded
    let r := populate_fields E res i stata_obs (List.range nfields) w
    match r.1 with
    | LoopResult.completed => populate_rows E res nfields loaded is r.2
    | _ => r

/-- The code from the label `CLEANUP:` to the end of `pgstata_populate_next`
(pg.c 676-693); `pending` is the value the variable holds there. -/
def populate_exit (E : Env) (debug_mode : Bool) (rc pending : Int) (w : World) :
    Int × World :=
  let w := if rc ≠ 0 then pgstata_cleanup E debug_mode (SF_error w "*error* cleaning up\n")
    else w
  if rc = 0 then
    let rc := if pending ≠ 0 then pgstata_ok else pgstata_finished
    let w := if rc = pgstata_ok then debug_display debug_mode w "DEBUG: more data.\n"
      else debug_display debug_mode w "DEBUG: no more data. Show's over. Go home.\n"
    (rc, w)
  else (rc, w)

/-- `pgstata_populate_next` after both loops ran to the end: the counter is
advanced, the page released and the next page fetched (pg.c 646-693). -/
def populate_advance (E : Env) (debug_mode : Bool) (pending_uninit : Int) (ntups : Nat)
    (w : World) : Int × World :=
  -- `pgstata_num_obs_loaded += i; PQclear(pgstata_res);`
  let w := { w with g := { w.g with
    pgstata_num_obs_loaded := w.g.pgstata_num_obs_loaded + ntups } }
  let advance_sql := snprintf 255 fetch_sql
  let w := debug_display debug_mode w advance_sql
  let x := PQexec E w advance_sql
  let w := { x.2 with g := { x.2.g with pgstata_res := some x.1 } }
  if x.1.status ≠ ExecStatusType.PGRES_TUPLES_OK then
    let w := SF_error (SF_error w "error: ") x.1.errorMessage
    populate_exit E debug_mode pgstata_db_error pending_uninit w
  else
    let pending : Int := x.1.tuples.length
    let w := { w with g := { w.g with pgstata_num_obs := w.g.pgstata_num_obs + pending } }
    let msg := snprintf 32 (toString w.g.pgstata_num_obs)
    let w :=
      if debug_mode then
        SF_display (SF_display (SF_display w "DEBUG: _obs: ") msg) "\n"
      else w
    let w := SF_macro_save w "_obs" msg
    populate_exit E debug_mode 0 pending w

/-- `pgstata_populate_next` (pg.c 534-694).  `pending_uninit` is the
indeterminate value of `int pending` when a `goto CLEANUP` jumps over its
initialisation at pg.c 664. -/
def pgstata_populate_next (E : Env) (pending_uninit : Int) (argv : List String)
    (w : World) : Int × World :=
  if usage_bad argv.length 0 1 then
    (pgstata_usage_error, SF_error w "usage: populate_next [debug]\n")
  else
    let debug_mode := debug_arg argv 0
    if PQstatus w.g.pgstata_conn ≠ ConnStatusType.CONNECTION_OK then
      pgconn_check_fail E debug_mode w
    else
      match w.g.pgstata_res with
      | none =>
        (pgstata_usage_error, pgstata_cleanup E debug_mode
          (SF_error w "Must call \"prepare\" before calling \"populate_next\"\n"))
      | some res =>
        let nfields := res.fields.length
        let ntups := res.tuples.length
        if ntups = 0 then (pgstata_finished, w)
        else
          let r := populate_rows E res nfields w.g.pgstata_num_obs_loaded (List.range ntups) w
          match r.1 with
          | LoopResult.parse_failed => populate_exit E debug_mode 0 pending_uninit r.2
          | LoopResult.store_failed rc => populate_exit E debug_mode rc pending_uninit r.2
          | LoopResult.completed => populate_advance E debug_mode pending_uninit ntups r.2
/-! ## The specification's wording, for comparison with the code -/

/-- Claim C3's table: the storage keyword of a column with wire type `ftype`
and type modifier `fmod`. -/
def spec_storage_keyword (ftype : Nat) (fmod : Int) : String :=
  if ftype = BOOLOID then "byte"
  else if ftype = INT2OID then "long"
  else if ftype ∈ [INT4OID, INT8OID, FLOAT4OID, FLOAT8OID, NUMERICOID] then "double"
  else if ftype ∈ [BPCHAROID, VARCHAROID] ∧ 0 < fmod - VARHDRSZ ∧ fmod - VARHDRSZ < 245 then
    "str" ++ toString (fmod - VARHDRSZ)
  else if ftype ∈ [DATEOID, TIMESTAMPOID, TIMESTAMPTZOID] then "long"
  else "str244"

/-- Claim C3's table: the display-format tag of a column. -/
def spec_format_tag (ftype : Nat) : String :=
  if ftype ∈ [DATEOID, TIMESTAMPOID, TIMESTAMPTZOID] then "%d" else "default"

/-- The entries in order, each followed by one space. -/
def space_terminated : List String → String
  | [] => ""
  | e :: es => e ++ " " ++ space_terminated es

/-! ## What a page is expected to store -/

/-- The store that the cell switch of `pgstata_populate_next` makes for a
non-null cell, read off `populate_cell` on an empty record (`none` when the
switch leaves by the date-parse `goto`, without a store). -/
def cell_call (E : Env) (oid : Nat) (stata_var stata_obs : Int) (valuetmp : CString) :
    Option HostCall :=
  (populate_cell E oid stata_var stata_obs valuetmp World.initial).2.stores.head?

/-- The stores of row `i` of the page, for the columns `js` in order: one for
every non-null cell, at variable `1 + j` and observation `stata_obs`. -/
def expected_row (E : Env) (g : Globals) (res : PGresult) (i : Nat) (stata_obs : Int)
    (js : List Nat) : List HostCall :=
  js.filterMap fun j =>
    (res.cell i j).bind fun v =>
      cell_call E (column_oid g j) (1 + j) stata_obs v

/-- The stores of the rows `is` of the page, in order; row `i` goes to
observation `1 + i + loaded`. -/
def expected_rows (E : Env) (g : Globals) (res : PGresult) (nfields : Nat) (loaded : Int)
    (is : List Nat) : List HostCall :=
  is.flatMap fun i => expected_row E g res i (1 + i + loaded) (List.range nfields)

/-- The variable (column) a store goes to. -/
def HostCall.var : HostCall → Int
  | HostCall.SF_vstore v _ _ => v
  | HostCall.SF_sstore v _ _ => v

/-- The observation (row) a store goes to. -/
def HostCall.obs : HostCall → Int
  | HostCall.SF_vstore _ o _ => o
  | HostCall.SF_sstore _ o _ => o

/-- The type identifiers that the two switches of `pg.c` name. -/
def recognised_oids : List Nat :=
  [BOOLOID, INT2OID, INT4OID, INT8OID, FLOAT4OID, FLOAT8OID, NUMERICOID, BPCHAROID,
   VARCHAROID, TEXTOID, DATEOID, TIMESTAMPOID, TIMESTAMPTZOID, CASHOID, INTERVALOID,
   TIMEOID, TIMETZOID]

/-- Claim C6's bounded-text columns: text, char/varchar whose declared width
`fmod - VARHDRSZ` is outside 1..244, money, interval, time, timetz, and every
unrecognised type id. -/
def spec_bounded_text (ftype : Nat) (fmod : Int) : Prop :=
  ftype = TEXTOID ∨
  ((ftype = BPCHAROID ∨ ftype = VARCHAROID) ∧
    ¬ (1 ≤ fmod - VARHDRSZ ∧ fmod - VARHDRSZ ≤ 244)) ∨
  ftype = CASHOID ∨ ftype = INTERVALOID ∨ ftype = TIMEOID ∨ ftype = TIMETZOID ∨
  ftype ∉ recognised_oids

instance (ftype : Nat) (fmod : Int) : Decidable (spec_bounded_text ftype fmod) := by
  unfold spec_bounded_text; infer_instance

/-- Claim C7's fixed-width-string columns of width `W`: char/varchar with
`0 < fmod - VARHDRSZ = W < 245`. -/
def spec_fixed_width (ftype : Nat) (fmod : Int) (W : Int) : Prop :=
  (ftype = BPCHAROID ∨ ftype = VARCHAROID) ∧ 0 < fmod - VARHDRSZ ∧ fmod - VARHDRSZ = W ∧
    W < 245

instance (ftype : Nat) (fmod W : Int) : Decidable (spec_fixed_width ftype fmod W) := by
  unfold spec_fixed_width; infer_instance

/-- The type identifiers `pgstata_prepare` remembers in `column_oids` for a
field list. -/
def resolved_oids (fields : List Field) : List Nat :=
  fields.map fun f => (prepare_switch f.ftype f.fmod).ftype

/-- An invariant of the globals: whenever no page is buffered, no transaction
is marked active and the three column arrays are released. -/
def idle_without_page (g : Globals) : Prop :=
  g.pgstata_res = none →
    g.pgstata_in_transaction = 0 ∧ g.column_oids = none ∧ g.column_widths = none ∧
      g.column_mods = none

/-! ## A scripted database and host, to run the plugin on concrete inputs -/

/-- A live connection. -/
def demo_conn : PGconn := { status := ConnStatusType.CONNECTION_OK, errorMessage := "" }

/-- The reply to a statement that returns no rows (`BEGIN`, `DECLARE`, `ROLLBACK`). -/
def command_ok : PGresult :=
  { status := ExecStatusType.PGRES_COMMAND_OK, errorMessage := "", fields := [], tuples := [] }

/-- A failed statement. -/
def fatal_error : PGresult :=
  { status := ExecStatusType.PGRES_FATAL_ERROR, errorMessage := "ERROR\n", fields := [],
    tuples := [] }

/-- A page of rows. -/
def page (fields : List Field) (tuples : List (List (Option CString))) : PGresult :=
  { status := ExecStatusType.PGRES_TUPLES_OK, errorMessage := "", fields := fields,
    tuples := tuples }

/-- A server that answers the `k`-th statement it receives with the `k`-th entry
of `rs` (and with an error after that). -/
def scripted (rs : List PGresult) : List String → String → PGresult :=
  fun sent _ => rs.getD sent.length fatal_error

/-- Value of a decimal digit. -/
def digit_value (c : Char) : Option Int :=
  if c.isDigit then some (c.toNat - 48) else none

/-- A sample `strptime(s, "%Y-%m-%d", ...)` for text that starts with
`YYYY-MM-DD`: the three numbers, the month in 1..12 and the day in 1..31;
anything else does not parse. -/
def strptime_ymd (s : CString) : Option tm :=
  match s with
  | y1 :: y2 :: y3 :: y4 :: '-' :: m1 :: m2 :: '-' :: d1 :: d2 :: _ =>
    match digit_value y1, digit_value y2, digit_value y3, digit_value y4,
        digit_value m1, digit_value m2, digit_value d1, digit_value d2 with
    | some a, some b, some c, some d, some e, some f, some g, some h =>
      let year := 1000 * a + 100 * b + 10 * c + d
      let mon := 10 * e + f
      let mday := 10 * g + h
      if 1 ≤ mon ∧ mon ≤ 12 ∧ 1 ≤ mday ∧ mday ≤ 31 then
        some { tm_year := year - 1900, tm_mon := mon - 1, tm_mday := mday }
      else none
    | _, _, _, _, _, _, _, _ => none
  | _ => none

/-- A database that answers from the script `rs`, the sample `strptime`, and a
host that accepts every store. -/
def demo_env (rs : List PGresult) : Env :=
  { PQconnectdb := fun _ => some demo_conn,
    reply := scripted rs,
    strptime := strptime_ymd,
    store_rc := fun _ _ => 0 }

/-- Connected, no query open, empty workspace. -/
def demo_connected : World :=
  { World.initial with g := { Globals.initial with pgstata_conn := some demo_conn } }

/-- Four columns: a boolean, a `varchar(3)`, a text and a date. -/
def demo_fields : List Field :=
  [ { fname := "flag", ftype := BOOLOID, fsize := 1, fmod := -1 },
    { fname := "code", ftype := VARCHAROID, fsize := -1, fmod := 7 },
    { fname := "note", ftype := TEXTOID, fsize := -1, fmod := -1 },
    { fname := "born", ftype := DATEOID, fsize := 4, fmod := -1 } ]

/-- Two rows for `demo_fields`, the second with a null text. -/
def demo_page : PGresult :=
  page demo_fields
    [ [some "t".toList, some "abc".toList, some "hello".toList, some "1960-02-29".toList],
      [some "f".toList, some "de".toList, none, some "2000-03-01".toList] ]

/-- The page of `demo_page` with a date in its second row that is not of the
form `YYYY-MM-DD` (PostgreSQL prints the special date `infinity` like this). -/
def demo_bad_page : PGresult :=
  page demo_fields
    [ [some "t".toList, some "abc".toList, some "hello".toList, some "1960-02-29".toList],
      [some "f".toList, some "de".toList, none, some "infinity".toList] ]

/-- The session after `prepare` fetched `first` as its first page; `later` are
the server's answers to the statements that follow. -/
def demo_open (first : PGresult) (later : List PGresult) : World :=
  (pgstata_prepare (demo_env ([command_ok, command_ok, first] ++ later)) ["SELECT 1"]
    demo_connected).2

/-- One `varchar(1)` column. -/
def demo_char1_fields : List Field :=
  [ { fname := "c", ftype := VARCHAROID, fsize := -1, fmod := 5 } ]

/-- One row for `demo_char1_fields` holding the single character U+00E9 as the
server sends it in UTF-8: the two bytes C3 A9. -/
def demo_char1_page : PGresult :=
  page demo_char1_fields [ [some [Char.ofNat 195, Char.ofNat 169]] ]

/-- One text column. -/
def demo_text_fields : List Field :=
  [ { fname := "t", ftype := TEXTOID, fsize := -1, fmod := -1 } ]

/-- One row for `demo_text_fields` holding 300 characters. -/
def demo_text_page : PGresult :=
  page demo_text_fields [ [some (List.replicate 300 'x')] ]

/-- One boolean column whose name is 63 letters long, the longest name
PostgreSQL gives a column. -/
def demo_long_name_fields : List Field :=
  [ { fname := String.mk (List.replicate 63 'c'), ftype := BOOLOID, fsize := 1, fmod := -1 } ]

/-- One row for `demo_long_name_fields`. -/
def demo_long_name_page : PGresult :=
  page demo_long_name_fields [ [some "t".toList] ]

/-! ### Facts about the reference calendar -/

theorem isLeapYear_iff (y : Int) :
    isLeapYear y = true ↔ (y % 4 = 0 ∧ (y % 100 ≠ 0 ∨ y % 400 = 0)) := by
  unfold isLeapYear
  simp only [Bool.and_eq_true, Bool.or_eq_true, decide_eq_true_eq]

/-- Arithmetic form of the leap-day term of `daysSince1960`. -/
theorem leapDay_cases (y m : Int) :
    ((y % 4 = 0 ∧ (y % 100 ≠ 0 ∨ y % 400 = 0)) ∧ 2 ≤ m ∧
        (if isLeapYear y = true ∧ 2 ≤ m then (1 : Int) else 0) = 1) ∨
    (¬ ((y % 4 = 0 ∧ (y % 100 ≠ 0 ∨ y % 400 = 0)) ∧ 2 ≤ m) ∧
        (if isLeapYear y = true ∧ 2 ≤ m then (1 : Int) else 0) = 0) := by
  have hL := isLeapYear_iff y
  by_cases h : isLeapYear y = true ∧ 2 ≤ m
  · rw [if_pos h]
    exact Or.inl ⟨hL.1 h.1, h.2, rfl⟩
  · rw [if_neg h]
    exact Or.inr ⟨fun hc => h ⟨hL.2 hc.1, hc.2⟩, rfl⟩

theorem daysInMonth_bounds (y m : Int) : 28 ≤ daysInMonth y m ∧ daysInMonth y m ≤ 31 := by
  unfold daysInMonth
  split_ifs <;> omega

/-- The table of `pgstata_tm2statadate` is the usual cumulative month table,
shifted so that the year starts on 1 March. -/
theorem dayoffset_eq (m : Int) (h0 : 0 ≤ m) (h1 : m < 12) :
    dayoffset.getD m.toNat 0
      = daysBeforeMonth.getD m.toNat 0 + (if m < 2 then 306 else -59) := by
  interval_cases m <;> decide

theorem daysBeforeMonth_nonneg (m : Int) (h0 : 0 ≤ m) (h1 : m < 12) :
    0 ≤ daysBeforeMonth.getD m.toNat 0 ∧ (daysBeforeMonth.getD m.toNat 0 = 0 → m = 0) := by
  interval_cases m <;> decide

/-- Passing from month `m` to month `m + 1` inside a year adds the length of
month `m` to the days that precede the month. -/
theorem daysBeforeMonth_succ (y m : Int) (h0 : 0 ≤ m) (h1 : m < 11) :
    daysBeforeMonth.getD (m + 1).toNat 0
        + (if isLeapYear y = true ∧ 2 ≤ m + 1 then (1 : Int) else 0)
      = daysBeforeMonth.getD m.toNat 0
        + (if isLeapYear y = true ∧ 2 ≤ m then (1 : Int) else 0) + daysInMonth y m := by
  unfold daysInMonth
  generalize isLeapYear y = L
  cases L <;> interval_cases m <;> decide

theorem daysSince1960_epoch : daysSince1960 epoch1960 = 0 := by decide

/-- Stepping one day forward in the calendar raises the reference day count
by exactly one (and stays inside the calendar). -/
theorem daysSince1960_nextDay (t : tm) (h : ValidDate t) :
    daysSince1960 (nextDay t) = daysSince1960 t + 1 ∧ ValidDate (nextDay t) := by
  obtain ⟨y, m, d⟩ := t
  obtain ⟨h0, h1, h2, h3⟩ := h
  simp only at h0 h1 h2 h3
  unfold nextDay ValidDate
  dsimp only
  split_ifs with k1 k2 <;> dsimp only
  · refine ⟨?_, h0, h1, by omega, by omega⟩
    unfold daysSince1960
    dsimp only
    omega
  · have hD1 := daysInMonth_bounds (y + 1900) (m + 1)
    refine ⟨?_, by omega, by omega, by omega, by omega⟩
    have hs := daysBeforeMonth_succ (y + 1900) m h0 k2
    unfold daysSince1960
    dsimp only
    omega
  · have hm : m = 11 := by omega
    subst hm
    have hD := daysInMonth_bounds (y + 1900) 11
    have hD1 := daysInMonth_bounds (y + 1 + 1900) 0
    have hd : daysInMonth (y + 1900) 11 = 31 := by simp [daysInMonth]
    refine ⟨?_, by omega, by omega, by omega, by omega⟩
    have hl := leapDay_cases (y + 1900) 11
    have hl1 := leapDay_cases (y + 1 + 1900) 0
    have hc : daysBeforeMonth.getD (11 : Int).toNat 0 = 334 := by decide
    have hc1 : daysBeforeMonth.getD (0 : Int).toNat 0 = 0 := by decide
    unfold daysSince1960 leapYearsBefore
    dsimp only
    rw [hc, hc1]
    omega

theorem nextDay_prevDay (t : tm) (h : ValidDate t) :
    ValidDate (prevDay t) ∧ nextDay (prevDay t) = t := by
  obtain ⟨y, m, d⟩ := t
  obtain ⟨h0, h1, h2, h3⟩ := h
  simp only at h0 h1 h2 h3
  unfold prevDay
  dsimp only
  split_ifs with k1 k2
  · refine ⟨⟨h0, h1, by dsimp only; omega, by dsimp only; omega⟩, ?_⟩
    unfold nextDay
    dsimp only
    rw [if_pos (by omega)]
    simp
  · have hp := daysInMonth_bounds (y + 1900) (m - 1)
    refine ⟨⟨by dsimp only; omega, by dsimp only; omega, by dsimp only; omega, le_refl _⟩, ?_⟩
    unfold nextDay
    dsimp only
    rw [if_neg (by omega), if_pos (by omega)]
    have : d = 1 := by omega
    simp [this]
  · have hm : m = 0 := by omega
    have hd : d = 1 := by omega
    subst hm hd
    refine ⟨⟨by dsimp only; omega, by dsimp only; omega, by dsimp only; omega,
      by simp [daysInMonth]⟩, ?_⟩
    simp [nextDay, daysInMonth]

theorem daysSince1960_nonneg (t : tm) (h : ValidDate t) (hy : 60 ≤ t.tm_year) :
    0 ≤ daysSince1960 t := by
  obtain ⟨y, m, d⟩ := t
  obtain ⟨h0, h1, h2, h3⟩ := h
  simp only at h0 h1 h2 h3 hy
  have hc := daysBeforeMonth_nonneg m h0 h1
  have hl := leapDay_cases (y + 1900) m
  unfold daysSince1960 leapYearsBefore
  dsimp only
  omega

theorem daysSince1960_zero (t : tm) (h : ValidDate t) (hy : 60 ≤ t.tm_year)
    (hz : daysSince1960 t = 0) : t = epoch1960 := by
  obtain ⟨y, m, d⟩ := t
  obtain ⟨h0, h1, h2, h3⟩ := h
  simp only at h0 h1 h2 h3 hy
  have hc := daysBeforeMonth_nonneg m h0 h1
  have hl := leapDay_cases (y + 1900) m
  unfold daysSince1960 leapYearsBefore at hz
  dsimp only at hz
  have key : y = 60 ∧ m = 0 ∧ d = 1 := by omega
  obtain ⟨rfl, rfl, rfl⟩ := key
  rfl

/-- Counting `k` days forward from 1 January 1960 reaches exactly the date
whose reference day count is `k`. -/
theorem iterate_nextDay_eq (k : Nat) :
    ∀ t : tm, ValidDate t → 60 ≤ t.tm_year → daysSince1960 t = k →
      nextDay^[k] epoch1960 = t := by
  induction k with
  | zero =>
    intro t h hy hz
    exact (daysSince1960_zero t h hy (by simpa using hz)).symm
  | succ k ih =>
    intro t h hy hz
    obtain ⟨hv, hn⟩ := nextDay_prevDay t h
    have hs := (daysSince1960_nextDay (prevDay t) hv).1
    rw [hn] at hs
    have hk : daysSince1960 (prevDay t) = k := by
      push_cast at hz
      omega
    have hy2 : 60 ≤ (prevDay t).tm_year := by
      by_contra hlt
      have h59 : t.tm_year = 60 ∧ t.tm_mon = 0 ∧ t.tm_mday = 1 := by
        obtain ⟨y, m, d⟩ := t
        obtain ⟨h0, h1, h2, h3⟩ := h
        unfold prevDay at hlt
        dsimp only at hlt h0 h1 h2 h3 hy ⊢
        split_ifs at hlt <;> dsimp only at hlt <;> omega
      have : t = epoch1960 := by
        obtain ⟨y, m, d⟩ := t
        obtain ⟨rfl, rfl, rfl⟩ := h59
        rfl
      rw [this, daysSince1960_epoch] at hz
      push_cast at hz
      omega
    rw [Function.iterate_succ_apply', ih (prevDay t) hv hy2 hk, hn]

/-! ### The converter against the reference calendar -/

/-- From shifted year `-3` on, C's truncating divisions in the day formula
agree with floor division. -/
theorem march_days_floor (Y : Int) (hY : -3 ≤ Y) :
    Y * 365 + Int.tdiv Y 4 - Int.tdiv Y 100 + Int.tdiv (Int.tdiv Y 100 + 2) 4
      = Y * 365 + Y / 4 - Y / 100 + (Y / 100 + 2) / 4 := by
  by_cases h : 0 ≤ Y
  · rw [Int.tdiv_eq_ediv h (by decide), Int.tdiv_eq_ediv h (by decide),
      Int.tdiv_eq_ediv (by omega) (by decide)]
  · have h1 : Y < 0 := by omega
    interval_cases Y <;> decide

/-- On every date of the calendar from 1 March 1797 on, `pgstata_tm2statadate`
returns the signed number of days from 1 January 1960. -/
theorem tm2statadate_eq_daysSince1960 (t : tm) (h : ValidDate t)
    (ha : OnOrAfter 1797 2 1 t) : pgstata_tm2statadate t = daysSince1960 t := by
  obtain ⟨y, m, d⟩ := t
  obtain ⟨h0, h1, h2, h3⟩ := h
  simp only [OnOrAfter] at ha
  simp only at h0 h1 h2 h3
  have ho := dayoffset_eq m h0 h1
  have hl := leapDay_cases (y + 1900) m
  unfold pgstata_tm2statadate daysSince1960 leapYearsBefore
  dsimp only
  rw [march_days_floor _ (by split_ifs <;> omega), ho]
  split_ifs at hl ⊢ <;> omega

theorem onOrAfter_of_year (t : tm) (hy : 60 ≤ t.tm_year) :
    OnOrAfter 1797 2 1 t := by
  unfold OnOrAfter
  omega

/-- Round trip on every date from 1 January 1960 on. -/
theorem statadate2tm_tm2statadate (t : tm) (h : ValidDate t) (hy : 60 ≤ t.tm_year) :
    statadate2tm (pgstata_tm2statadate t) = t := by
  rw [tm2statadate_eq_daysSince1960 t h (onOrAfter_of_year t hy)]
  have hn := daysSince1960_nonneg t h hy
  unfold statadate2tm
  rw [if_pos hn]
  exact iterate_nextDay_eq _ t h hy (Int.toNat_of_nonneg hn).symm

theorem nextDay_year_ge (t : tm) : t.tm_year ≤ (nextDay t).tm_year := by
  unfold nextDay
  split_ifs <;> dsimp only <;> omega

/-- Consecutive days get consecutive day counts (dates from 1960 on). -/
theorem tm2statadate_nextDay (t : tm) (h : ValidDate t) (hy : 60 ≤ t.tm_year) :
    pgstata_tm2statadate (nextDay t) = pgstata_tm2statadate t + 1 := by
  obtain ⟨hs, hv⟩ := daysSince1960_nextDay t h
  have hy2 : 60 ≤ (nextDay t).tm_year := le_trans hy (nextDay_year_ge t)
  rw [tm2statadate_eq_daysSince1960 _ hv (onOrAfter_of_year _ hy2),
    tm2statadate_eq_daysSince1960 t h (onOrAfter_of_year t hy), hs]

/-! ### Claims C1 and C2 -/

/-- C1 (defect): before 1 March 1797 the C code does not return the signed day
count.  29 February 1796 and the day after it, 1 March 1796, are both dates of
the proleptic Gregorian calendar, and `pgstata_tm2statadate` maps both to
`-59840`, where the day count of 1 March 1796 is `-59839`: for the shifted year
`-4` C's truncating `year / 100` gives `0` where the formula needs `-1`. -/
theorem C1_tm2statadate_wrong_in_1796 :
    ValidDate ⟨-104, 1, 29⟩ ∧ ValidDate ⟨-104, 2, 1⟩ ∧
    nextDay ⟨-104, 1, 29⟩ = ⟨-104, 2, 1⟩ ∧
    pgstata_tm2statadate ⟨-104, 1, 29⟩ = -59840 ∧
    pgstata_tm2statadate ⟨-104, 2, 1⟩ = -59840 ∧
    daysSince1960 ⟨-104, 1, 29⟩ = -59840 ∧
    daysSince1960 ⟨-104, 2, 1⟩ = -59839 := by
  decide

/-- C2: for every date `t` of the calendar with 1 Jan 1960 ≤ `t` < 1 Jan 2100,
the inverse conversion applied to `pgstata_tm2statadate t` gives back `t`; the
converter is injective on that range; and the day after `t` gets the next
integer. -/
theorem C2_roundtrip_1960_2100 (t : tm) (h : ValidDate t)
    (hr : 1960 ≤ t.tm_year + 1900 ∧ t.tm_year + 1900 < 2100) :
    statadate2tm (pgstata_tm2statadate t) = t ∧
    (∀ u : tm, ValidDate u → (1960 ≤ u.tm_year + 1900 ∧ u.tm_year + 1900 < 2100) →
      pgstata_tm2statadate u = pgstata_tm2statadate t → u = t) ∧
    pgstata_tm2statadate (nextDay t) = pgstata_tm2statadate t + 1 := by
  have hy : 60 ≤ t.tm_year := by omega
  refine ⟨statadate2tm_tm2statadate t h hy, ?_, tm2statadate_nextDay t h hy⟩
  intro u hu hur he
  have hyu : 60 ≤ u.tm_year := by omega
  rw [← statadate2tm_tm2statadate u hu hyu, he, statadate2tm_tm2statadate t h hy]

/-- C2 at 29 February 1960. -/
theorem C2_roundtrip_1960_2100_witness :
    ValidDate ⟨60, 1, 29⟩ ∧
    (statadate2tm (pgstata_tm2statadate ⟨60, 1, 29⟩) = ⟨60, 1, 29⟩ ∧
    (∀ u : tm, ValidDate u → (1960 ≤ u.tm_year + 1900 ∧ u.tm_year + 1900 < 2100) →
      pgstata_tm2statadate u = pgstata_tm2statadate ⟨60, 1, 29⟩ → u = ⟨60, 1, 29⟩) ∧
    pgstata_tm2statadate (nextDay ⟨60, 1, 29⟩) = pgstata_tm2statadate ⟨60, 1, 29⟩ + 1) :=
  ⟨by decide, C2_roundtrip_1960_2100 ⟨60, 1, 29⟩ (by decide) (by decide)⟩

/-! ## What each primitive leaves untouched -/

@[simp] theorem SF_error_g (w : World) (s : String) : (SF_error w s).g = w.g := rfl
@[simp] theorem SF_error_sent (w : World) (s : String) : (SF_error w s).sent = w.sent := rfl
@[simp] theorem SF_error_nobs (w : World) (s : String) : (SF_error w s).nobs = w.nobs := rfl
@[simp] theorem SF_error_stores (w : World) (s : String) :
    (SF_error w s).stores = w.stores := rfl
@[simp] theorem SF_error_saved (w : World) (s : String) : (SF_error w s).saved = w.saved := rfl

@[simp] theorem SF_display_g (w : World) (s : String) : (SF_display w s).g = w.g := rfl
@[simp] theorem SF_display_sent (w : World) (s : String) :
    (SF_display w s).sent = w.sent := rfl
@[simp] theorem SF_display_nobs (w : World) (s : String) :
    (SF_display w s).nobs = w.nobs := rfl
@[simp] theorem SF_display_stores (w : World) (s : String) :
    (SF_display w s).stores = w.stores := rfl
@[simp] theorem SF_display_saved (w : World) (s : String) :
    (SF_display w s).saved = w.saved := rfl

@[simp] theorem debug_display_g (d : Bool) (w : World) (s : String) :
    (debug_display d w s).g = w.g := by
  cases d <;> rfl
@[simp] theorem debug_display_sent (d : Bool) (w : World) (s : String) :
    (debug_display d w s).sent = w.sent := by
  cases d <;> rfl
@[simp] theorem debug_display_nobs (d : Bool) (w : World) (s : String) :
    (debug_display d w s).nobs = w.nobs := by
  cases d <;> rfl
@[simp] theorem debug_display_stores (d : Bool) (w : World) (s : String) :
    (debug_display d w s).stores = w.stores := by
  cases d <;> rfl
@[simp] theorem debug_display_saved (d : Bool) (w : World) (s : String) :
    (debug_display d w s).saved = w.saved := by
  cases d <;> rfl

@[simp] theorem SF_error_faults (w : World) (s : String) :
    (SF_error w s).faults = w.faults := rfl
@[simp] theorem SF_display_faults (w : World) (s : String) :
    (SF_display w s).faults = w.faults := rfl
@[simp] theorem debug_display_faults (d : Bool) (w : World) (s : String) :
    (debug_display d w s).faults = w.faults := by
  cases d <;> rfl
@[simp] theorem SF_macro_save_faults (w : World) (n v : String) :
    (SF_macro_save w n v).faults = w.faults := rfl
@[simp] theorem PQexec_faults (E : Env) (w : World) (s : String) :
    (PQexec E w s).2.faults = w.faults := by
  unfold PQexec
  split <;> rfl

@[simp] theorem fault_g (w : World) (f : Fault) : (fault w f).g = w.g := rfl
@[simp] theorem fault_sent (w : World) (f : Fault) : (fault w f).sent = w.sent := rfl
@[simp] theorem fault_nobs (w : World) (f : Fault) : (fault w f).nobs = w.nobs := rfl
@[simp] theorem fault_stores (w : World) (f : Fault) : (fault w f).stores = w.stores := rfl
@[simp] theorem fault_saved (w : World) (f : Fault) : (fault w f).saved = w.saved := rfl

@[simp] theorem check_fits_g (w : World) (b : String) (cap : Nat) (s : String) :
    (check_fits w b cap s).g = w.g := by
  unfold check_fits
  split_ifs <;> rfl
@[simp] theorem check_fits_sent (w : World) (b : String) (cap : Nat) (s : String) :
    (check_fits w b cap s).sent = w.sent := by
  unfold check_fits
  split_ifs <;> rfl
@[simp] theorem check_fits_nobs (w : World) (b : String) (cap : Nat) (s : String) :
    (check_fits w b cap s).nobs = w.nobs := by
  unfold check_fits
  split_ifs <;> rfl
@[simp] theorem check_fits_stores (w : World) (b : String) (cap : Nat) (s : String) :
    (check_fits w b cap s).stores = w.stores := by
  unfold check_fits
  split_ifs <;> rfl
@[simp] theorem check_fits_saved (w : World) (b : String) (cap : Nat) (s : String) :
    (check_fits w b cap s).saved = w.saved := by
  unfold check_fits
  split_ifs <;> rfl

@[simp] theorem strcat_text (w : World) (b : String) (cap : Nat) (dst src : String) :
    (strcat w b cap dst src).1 = dst ++ src := rfl
@[simp] theorem strcat_world (w : World) (b : String) (cap : Nat) (dst src : String) :
    (strcat w b cap dst src).2 = check_fits w b cap (dst ++ src) := rfl

@[simp] theorem SF_macro_save_g (w : World) (n v : String) :
    (SF_macro_save w n v).g = w.g := rfl
@[simp] theorem SF_macro_save_sent (w : World) (n v : String) :
    (SF_macro_save w n v).sent = w.sent := rfl
@[simp] theorem SF_macro_save_nobs (w : World) (n v : String) :
    (SF_macro_save w n v).nobs = w.nobs := rfl
@[simp] theorem SF_macro_save_stores (w : World) (n v : String) :
    (SF_macro_save w n v).stores = w.stores := rfl
@[simp] theorem SF_macro_save_saved (w : World) (n v : String) :
    (SF_macro_save w n v).saved = w.saved ++ [(n, v)] := rfl

@[simp] theorem PQexec_g (E : Env) (w : World) (s : String) : (PQexec E w s).2.g = w.g := by
  unfold PQexec
  split <;> rfl
@[simp] theorem PQexec_nobs (E : Env) (w : World) (s : String) :
    (PQexec E w s).2.nobs = w.nobs := by
  unfold PQexec
  split <;> rfl
@[simp] theorem PQexec_stores (E : Env) (w : World) (s : String) :
    (PQexec E w s).2.stores = w.stores := by
  unfold PQexec
  split <;> rfl
@[simp] theorem PQexec_saved (E : Env) (w : World) (s : String) :
    (PQexec E w s).2.saved = w.saved := by
  unfold PQexec
  split <;> rfl
@[simp] theorem PQexec_diag (E : Env) (w : World) (s : String) :
    (PQexec E w s).2.diag = w.diag := by
  unfold PQexec
  split <;> rfl

/-- On a live handle `PQexec` sends the statement and returns the server's reply. -/
theorem PQexec_connected (E : Env) (w : World) (s : String)
    (h : w.g.pgstata_conn.isSome = true) :
    PQexec E w s = (E.reply w.sent s, { w with sent := w.sent ++ [s] }) := by
  unfold PQexec
  split
  · rename_i hc
    rw [hc] at h
    cases h
  · rfl

/-- `PQstatus` reports `CONNECTION_OK` only for a live handle. -/
theorem isSome_of_PQstatus_ok (c : Option PGconn)
    (h : PQstatus c = ConnStatusType.CONNECTION_OK) : c.isSome = true := by
  cases c with
  | none => cases h
  | some c => rfl

@[simp] theorem host_store_g (E : Env) (w : World) (c : HostCall) :
    (host_store E w c).2.g = w.g := rfl
@[simp] theorem host_store_sent (E : Env) (w : World) (c : HostCall) :
    (host_store E w c).2.sent = w.sent := rfl
@[simp] theorem host_store_nobs (E : Env) (w : World) (c : HostCall) :
    (host_store E w c).2.nobs = w.nobs := rfl
@[simp] theorem host_store_saved (E : Env) (w : World) (c : HostCall) :
    (host_store E w c).2.saved = w.saved := rfl
@[simp] theorem host_store_stores (E : Env) (w : World) (c : HostCall) :
    (host_store E w c).2.stores = w.stores ++ [c] := rfl

@[simp] theorem typoid2name_g (E : Env) (t : Nat) (n : Nat) (d : Bool) (w : World) :
    (pgstata_typoid2name E t n d w).2.g = w.g := by
  unfold pgstata_typoid2name
  dsimp only
  split_ifs <;> simp
@[simp] theorem typoid2name_nobs (E : Env) (t : Nat) (n : Nat) (d : Bool) (w : World) :
    (pgstata_typoid2name E t n d w).2.nobs = w.nobs := by
  unfold pgstata_typoid2name
  dsimp only
  split_ifs <;> simp
@[simp] theorem typoid2name_stores (E : Env) (t : Nat) (n : Nat) (d : Bool) (w : World) :
    (pgstata_typoid2name E t n d w).2.stores = w.stores := by
  unfold pgstata_typoid2name
  dsimp only
  split_ifs <;> simp
@[simp] theorem typoid2name_saved (E : Env) (t : Nat) (n : Nat) (d : Bool) (w : World) :
    (pgstata_typoid2name E t n d w).2.saved = w.saved := by
  unfold pgstata_typoid2name
  dsimp only
  split_ifs <;> simp

/-! ### `pgstata_cleanup` and `pgstata_teardown` -/

/-- The globals after `pgstata_cleanup`: only the connection handle and the two
row counters survive. -/
theorem cleanup_g (E : Env) (d : Bool) (w : World) :
    (pgstata_cleanup E d w).g =
      { pgstata_conn := w.g.pgstata_conn, pgstata_res := none, pgstata_in_transaction := 0,
        pgstata_num_obs_loaded := w.g.pgstata_num_obs_loaded,
        pgstata_num_obs := w.g.pgstata_num_obs,
        column_oids := none, column_widths := none, column_mods := none } := by
  obtain ⟨⟨c, r, t, l, k, o, wd, m⟩, sent, nobs, stores, saved, diag, faults⟩ := w
  unfold pgstata_cleanup
  dsimp only
  split_ifs <;> simp_all

@[simp] theorem cleanup_nobs (E : Env) (d : Bool) (w : World) :
    (pgstata_cleanup E d w).nobs = w.nobs := by
  unfold pgstata_cleanup
  dsimp only
  split_ifs <;> simp
@[simp] theorem cleanup_stores (E : Env) (d : Bool) (w : World) :
    (pgstata_cleanup E d w).stores = w.stores := by
  unfold pgstata_cleanup
  dsimp only
  split_ifs <;> simp
@[simp] theorem cleanup_saved (E : Env) (d : Bool) (w : World) :
    (pgstata_cleanup E d w).saved = w.saved := by
  unfold pgstata_cleanup
  dsimp only
  split_ifs <;> simp

/-- What `pgstata_cleanup` sends: one `ROLLBACK` when a transaction is marked
active on a live handle, nothing otherwise. -/
theorem cleanup_sent (E : Env) (d : Bool) (w : World) :
    (pgstata_cleanup E d w).sent =
      if w.g.pgstata_in_transaction ≠ 0 ∧ w.g.pgstata_conn.isSome = true
      then w.sent ++ ["ROLLBACK TRANSACTION\n"] else w.sent := by
  obtain ⟨⟨c, r, t, l, k, o, wd, m⟩, sent, nobs, stores, saved, diag, faults⟩ := w
  unfold pgstata_cleanup
  dsimp only
  cases c <;> split_ifs <;> simp_all [PQexec]

/-- With nothing to release and no transaction, `pgstata_cleanup` does nothing. -/
theorem cleanup_idle (E : Env) (d : Bool) (w : World)
    (hres : w.g.pgstata_res = none) (ht : w.g.pgstata_in_transaction = 0)
    (ho : w.g.column_oids = none) (hw : w.g.column_widths = none)
    (hm : w.g.column_mods = none) : pgstata_cleanup E d w = w := by
  obtain ⟨⟨c, r, t, l, k, o, wd, m⟩, sent, nobs, stores, saved, diag, faults⟩ := w
  simp only at hres ht ho hw hm
  subst hres ht ho hw hm
  simp [pgstata_cleanup]

/-- The globals after `pgstata_teardown`: only the two row counters survive. -/
theorem teardown_g (E : Env) (d : Bool) (w : World) :
    (pgstata_teardown E d w).g =
      { pgstata_conn := none, pgstata_res := none, pgstata_in_transaction := 0,
        pgstata_num_obs_loaded := w.g.pgstata_num_obs_loaded,
        pgstata_num_obs := w.g.pgstata_num_obs,
        column_oids := none, column_widths := none, column_mods := none } := by
  unfold pgstata_teardown
  dsimp only
  split_ifs with h
  · simp [cleanup_g]
  · rw [cleanup_g] at h ⊢
    simp only [Option.isSome_iff_ne_none, ne_eq, not_not] at h
    simp [h]

theorem teardown_sent (E : Env) (d : Bool) (w : World) :
    (pgstata_teardown E d w).sent = (pgstata_cleanup E d w).sent := by
  unfold pgstata_teardown
  dsimp only
  split_ifs <;> simp

@[simp] theorem teardown_stores (E : Env) (d : Bool) (w : World) :
    (pgstata_teardown E d w).stores = w.stores := by
  unfold pgstata_teardown
  dsimp only
  split_ifs <;> simp
@[simp] theorem teardown_saved (E : Env) (d : Bool) (w : World) :
    (pgstata_teardown E d w).saved = w.saved := by
  unfold pgstata_teardown
  dsimp only
  split_ifs <;> simp
@[simp] theorem teardown_nobs (E : Env) (d : Bool) (w : World) :
    (pgstata_teardown E d w).nobs = w.nobs := by
  unfold pgstata_teardown
  dsimp only
  split_ifs <;> simp

/-! ## `pgstata_prepare` -/

theorem snprintf_str (n : Int) (h0 : 0 < n) (h1 : n < 245) :
    snprintf 32 ("str" ++ toString n ++ " ") = "str" ++ toString n ++ " " := by
  interval_cases n <;> rfl

/-- The switch of `pgstata_prepare` appends the keyword of claim C3's table. -/
theorem prepare_switch_type_entry (ftype : Nat) (fmod : Int) :
    (prepare_switch ftype fmod).type_entry = spec_storage_keyword ftype fmod ++ " " := by
  unfold prepare_switch spec_storage_keyword
  simp only [BOOLOID, INT8OID, INT2OID, INT4OID, TEXTOID, FLOAT4OID, FLOAT8OID,
    BPCHAROID, VARCHAROID, DATEOID, TIMESTAMPOID, TIMESTAMPTZOID, NUMERICOID,
    List.mem_cons, List.mem_singleton, List.not_mem_nil, or_false]
  by_cases hw : 0 < fmod - VARHDRSZ ∧ fmod - VARHDRSZ < 245
  · have hs := snprintf_str (fmod - VARHDRSZ) hw.1 hw.2
    split_ifs <;> first | rfl | exact hs | (exfalso; omega)
  · split_ifs <;> first | rfl | (exfalso; omega)

/-- The format the switch leaves in `statafmt_tmp` is the tag of claim C3's
table, with the empty text standing for "default". -/
theorem prepare_switch_fmt (ftype : Nat) (fmod : Int) :
    (if (prepare_switch ftype fmod).statafmt_tmp ≠ ""
      then (prepare_switch ftype fmod).statafmt_tmp else "default") = spec_format_tag ftype := by
  unfold prepare_switch spec_format_tag
  simp only [BOOLOID, INT8OID, INT2OID, INT4OID, TEXTOID, FLOAT4OID, FLOAT8OID,
    BPCHAROID, VARCHAROID, DATEOID, TIMESTAMPOID, TIMESTAMPTZOID, NUMERICOID,
    List.mem_cons, List.mem_singleton, List.not_mem_nil, or_false]
  split_ifs <;> first | rfl | (exfalso; omega) | (exfalso; simp_all)

/-- One pass of the column loop leaves the globals, the workspace and the saved
macros as they are. -/
theorem prepare_column_frame (E : Env) (d : Bool) (n : Nat) (a : PrepareLoop) (f : Field) :
    (prepare_column E d n a f).w.g = a.w.g ∧ (prepare_column E d n a f).w.nobs = a.w.nobs ∧
    (prepare_column E d n a f).w.stores = a.w.stores ∧
    (prepare_column E d n a f).w.saved = a.w.saved := by
  unfold prepare_column
  dsimp only
  split_ifs <;> simp

theorem foldl_prepare_column (E : Env) (d : Bool) (n : Nat) (fs : List Field) :
    ∀ a : PrepareLoop,
      (fs.foldl (prepare_column E d n) a).w.g = a.w.g ∧
      (fs.foldl (prepare_column E d n) a).w.nobs = a.w.nobs ∧
      (fs.foldl (prepare_column E d n) a).w.stores = a.w.stores ∧
      (fs.foldl (prepare_column E d n) a).w.saved = a.w.saved ∧
      (fs.foldl (prepare_column E d n) a).stata_mac_vars
        = a.stata_mac_vars ++ space_terminated (fs.map Field.fname) ∧
      (fs.foldl (prepare_column E d n) a).stata_mac_types
        = a.stata_mac_types
          ++ space_terminated (fs.map fun f => spec_storage_keyword f.ftype f.fmod) ∧
      (fs.foldl (prepare_column E d n) a).stata_mac_fmts
        = a.stata_mac_fmts ++ space_terminated (fs.map fun f => spec_format_tag f.ftype) ∧
      (fs.foldl (prepare_column E d n) a).column_oids
        = a.column_oids ++ fs.map fun f => (prepare_switch f.ftype f.fmod).ftype := by
  induction fs with
  | nil =>
    intro a
    simp [space_terminated, String.append_empty]
  | cons f fs ih =>
    intro a
    obtain ⟨h1, h2, h3, h4, h5, h6, h7, h8⟩ := ih (prepare_column E d n a f)
    obtain ⟨g1, g2, g3, g4⟩ := prepare_column_frame E d n a f
    simp only [List.foldl_cons, List.map_cons, space_terminated]
    refine ⟨h1.trans g1, h2.trans g2, h3.trans g3, h4.trans g4, ?_, ?_, ?_, ?_⟩
    · rw [h5]
      simp [prepare_column, String.append_assoc]
    · rw [h6]
      simp [prepare_column, prepare_switch_type_entry, String.append_assoc]
    · rw [h7]
      have hf := prepare_switch_fmt f.ftype f.fmod
      simp only [prepare_column]
      rw [← hf]
      split_ifs <;> simp [String.append_assoc]
    · rw [h8]
      simp [prepare_column]

/-- A `pgstata_prepare` that returns ok went through all three statements and
ended in `prepare_publish` on the first page. -/
theorem prepare_ok_path (E : Env) (argv : List String) (w : World)
    (h : (pgstata_prepare E argv w).1 = pgstata_ok) :
    ∃ (res : PGresult) (w1 : World) (d : Bool),
      pgstata_prepare E argv w = prepare_publish E d res w1 ∧
      res.status = ExecStatusType.PGRES_TUPLES_OK ∧
      w1.g = { w.g with pgstata_res := some res, pgstata_in_transaction := 1 } ∧
      PQstatus w.g.pgstata_conn = ConnStatusType.CONNECTION_OK ∧
      w1.stores = w.stores ∧ w1.saved = w.saved ∧ w1.nobs = w.nobs ∧
      w1.faults = w.faults := by
  unfold pgstata_prepare at h ⊢
  dsimp only at h ⊢
  split_ifs at h ⊢ with h1 h2 h3 h4 h5 h6
  · simp [pgstata_usage_error, pgstata_ok] at h
  · simp [pgconn_check_fail, pgstata_db_error, pgstata_ok] at h
  · simp [pgstata_ok] at h
  · simp [pgresult_check_fail, pgstata_db_error, pgstata_ok] at h
  · simp [pgresult_check_fail, pgstata_db_error, pgstata_ok] at h
  · simp [pgstata_db_error, pgstata_ok] at h
  · refine ⟨_, _, _, rfl, not_not.mp h6, ?_, not_not.mp h2, ?_, ?_, ?_, ?_⟩ <;> simp

/-- The world that `prepare_publish` returns. -/
theorem prepare_publish_spec (E : Env) (d : Bool) (res : PGresult) (w : World) :
    (prepare_publish E d res w).1 = pgstata_ok ∧
    (prepare_publish E d res w).2.g =
      { w.g with pgstata_num_obs_loaded := 0, pgstata_num_obs := res.tuples.length,
                 column_oids := some (res.fields.map
                   fun f => (prepare_switch f.ftype f.fmod).ftype),
                 column_widths := (prepare_publish E d res w).2.g.column_widths,
                 column_mods := (prepare_publish E d res w).2.g.column_mods } ∧
    (prepare_publish E d res w).2.stores = w.stores ∧
    (prepare_publish E d res w).2.nobs = w.nobs ∧
    (prepare_publish E d res w).2.saved = w.saved ++
      [("_obs", toString (res.tuples.length : Int)),
       ("_vars", space_terminated (res.fields.map Field.fname)),
       ("_types", space_terminated
          (res.fields.map fun f => spec_storage_keyword f.ftype f.fmod)),
       ("_fmts", space_terminated (res.fields.map fun f => spec_format_tag f.ftype))] := by
  obtain ⟨h1, h2, h3, h4, h5, h6, h7, h8⟩ := foldl_prepare_column E d res.fields.length
    res.fields
    { w := check_fits (check_fits (check_fits
        { w with g := { w.g with pgstata_num_obs_loaded := 0,
                                 pgstata_num_obs := res.tuples.length } }
        "stata_mac_vars" (res.fields.length * 33) "")
        "stata_mac_types" (res.fields.length * 12) "")
        "stata_mac_fmts" (res.fields.length * 12) "",
      stata_mac_vars := "", stata_mac_types := "", stata_mac_fmts := "",
      column_widths := [], column_oids := [], column_mods := [] }
  simp only [String.empty_append, List.nil_append] at h5 h6 h7 h8
  unfold prepare_publish prepare_columns
  dsimp only
  cases d <;> simp [h1, h2, h3, h4, h5, h6, h7, h8]

/-! ### When the column loop stays inside its buffers -/

/-- A write that fits its buffer is no fault. -/
theorem check_fits_of_le (w : World) (b : String) (cap : Nat) (s : String)
    (h : s.length + 1 ≤ cap) : check_fits w b cap s = w := by
  simp [check_fits, h]

/-- A write that does not fit is recorded. -/
theorem check_fits_of_gt (w : World) (b : String) (cap : Nat) (s : String)
    (h : cap < s.length + 1) :
    (check_fits w b cap s).faults = w.faults ++ [Fault.overrun b] := by
  have h2 : ¬ (s.length + 1 ≤ cap) := by omega
  simp [check_fits, h2, fault]

/-- The type-name lookup meets no fault when every tuples-ok answer to it has
a row and a column. -/
theorem typoid2name_faults (E : Env) (t n : Nat) (d : Bool) (w : World)
    (hlook : ∀ sent : List String,
      (E.reply sent (typname_sql t)).status = ExecStatusType.PGRES_TUPLES_OK →
      0 < (E.reply sent (typname_sql t)).tuples.length ∧
        0 < (E.reply sent (typname_sql t)).fields.length) :
    (pgstata_typoid2name E t n d w).2.faults = w.faults := by
  unfold pgstata_typoid2name
  dsimp only
  split_ifs with h1 h2
  · simp
  · simp
  · exfalso
    cases hcn : w.g.pgstata_conn with
    | none =>
      simp [PQexec, hcn, PGresult.null] at h1
    | some c =>
      have hw : (debug_display d w (typname_sql t)).g.pgstata_conn.isSome = true := by
        rw [debug_display_g, hcn]
        rfl
      rw [PQexec_connected E _ _ hw] at h1 h2
      exact h2 (hlook _ (not_not.mp h1))

theorem space_length : " ".length = 1 := rfl

/-- An entry of `_types` takes at most 7 chars. -/
theorem type_entry_length (ftype : Nat) (fmod : Int) :
    (prepare_switch ftype fmod).type_entry.length ≤ 7 := by
  rw [prepare_switch_type_entry, String.length_append, space_length]
  unfold spec_storage_keyword
  split_ifs with h1 h2 h3 h4 h5
  · decide
  · decide
  · decide
  · obtain ⟨_, h0, h245⟩ := h4
    generalize fmod - VARHDRSZ = k at h0 h245
    interval_cases k <;> decide
  · decide
  · decide

/-- An entry of `_fmts`, before its space, takes at most 7 chars. -/
theorem fmt_entry_length (ftype : Nat) (fmod : Int) :
    (if (prepare_switch ftype fmod).statafmt_tmp ≠ ""
      then (prepare_switch ftype fmod).statafmt_tmp else "default").length ≤ 7 := by
  rw [prepare_switch_fmt]
  unfold spec_format_tag
  split_ifs <;> decide

/-- One pass of the column loop whose writes fit meets no fault. -/
theorem prepare_column_faults (E : Env) (d : Bool) (n : Nat) (a : PrepareLoop) (f : Field)
    (hlook : ∀ (t : Nat) (sent : List String),
      (E.reply sent (typname_sql t)).status = ExecStatusType.PGRES_TUPLES_OK →
      0 < (E.reply sent (typname_sql t)).tuples.length ∧
        0 < (E.reply sent (typname_sql t)).fields.length)
    (hv : a.stata_mac_vars.length + f.fname.length + 1 + 1 ≤ n * 33)
    (ht : a.stata_mac_types.length + 7 + 1 ≤ n * 12)
    (hm : a.stata_mac_fmts.length + 8 + 1 ≤ n * 12) :
    (prepare_column E d n a f).w.faults = a.w.faults ∧
    (prepare_column E d n a f).stata_mac_vars = a.stata_mac_vars ++ f.fname ++ " " ∧
    (prepare_column E d n a f).stata_mac_types.length ≤ a.stata_mac_types.length + 7 ∧
    (prepare_column E d n a f).stata_mac_fmts.length ≤ a.stata_mac_fmts.length + 8 := by
  have h7 := type_entry_length f.ftype f.fmod
  have h8 := fmt_entry_length f.ftype f.fmod
  have e1 : (a.stata_mac_vars ++ f.fname).length + 1 ≤ n * 33 := by
    rw [String.length_append]
    omega
  have e2 : (a.stata_mac_vars ++ f.fname ++ " ").length + 1 ≤ n * 33 := by
    rw [String.length_append, String.length_append, space_length]
    omega
  have e3 : (a.stata_mac_types ++ (prepare_switch f.ftype f.fmod).type_entry).length + 1
      ≤ n * 12 := by
    rw [String.length_append]
    omega
  have e4 : (a.stata_mac_fmts ++ (if (prepare_switch f.ftype f.fmod).statafmt_tmp ≠ ""
      then (prepare_switch f.ftype f.fmod).statafmt_tmp else "default")).length + 1
      ≤ n * 12 := by
    rw [String.length_append]
    omega
  have e5 : (a.stata_mac_fmts ++ (if (prepare_switch f.ftype f.fmod).statafmt_tmp ≠ ""
      then (prepare_switch f.ftype f.fmod).statafmt_tmp else "default") ++ " ").length + 1
      ≤ n * 12 := by
    rw [String.length_append, String.length_append, space_length]
    omega
  unfold prepare_column
  simp only [strcat_text, strcat_world]
  rw [check_fits_of_le _ _ _ _ e1, check_fits_of_le _ _ _ _ e2, check_fits_of_le _ _ _ _ e5,
    check_fits_of_le _ _ _ _ e4, check_fits_of_le _ _ _ _ e3]
  refine ⟨?_, trivial, ?_, ?_⟩
  · rw [debug_display_faults]
    split_ifs
    · rw [SF_error_faults, typoid2name_faults E _ _ _ _ (hlook _)]
    · rfl
  · rw [String.length_append]
    omega
  · rw [String.length_append, String.length_append, space_length]
    omega

theorem space_terminated_cons_length (e : String) (es : List String) :
    (space_terminated (e :: es)).length = e.length + 1 + (space_terminated es).length := by
  simp only [space_terminated, String.length_append]
  rfl

/-- The column loop whose writes all fit meets no fault. -/
theorem foldl_prepare_column_faults (E : Env) (d : Bool) (n : Nat)
    (hlook : ∀ (t : Nat) (sent : List String),
      (E.reply sent (typname_sql t)).status = ExecStatusType.PGRES_TUPLES_OK →
      0 < (E.reply sent (typname_sql t)).tuples.length ∧
        0 < (E.reply sent (typname_sql t)).fields.length)
    (fs : List Field) :
    ∀ a : PrepareLoop,
      a.stata_mac_vars.length + (space_terminated (fs.map Field.fname)).length + 1 ≤ n * 33 →
      a.stata_mac_types.length + 7 * fs.length + 1 ≤ n * 12 →
      a.stata_mac_fmts.length + 8 * fs.length + 1 ≤ n * 12 →
      (fs.foldl (prepare_column E d n) a).w.faults = a.w.faults := by
  induction fs with
  | nil => intro a _ _ _; rfl
  | cons f fs ih =>
    intro a hv ht hm
    rw [List.map_cons, space_terminated_cons_length] at hv
    rw [List.length_cons] at ht hm
    obtain ⟨c1, c2, c3, c4⟩ := prepare_column_faults E d n a f hlook (by omega) (by omega)
      (by omega)
    rw [List.foldl_cons, ih (prepare_column E d n a f) ?_ ?_ ?_, c1]
    · rw [c2, String.length_append, String.length_append, space_length]
      omega
    · omega
    · omega

/-- The world that `prepare_publish` returns has met no fault when the page has
a column, the names with their spaces and the NUL fit `stata_mac_vars`, and
every type-name lookup that succeeds has a row. -/
theorem prepare_publish_faults (E : Env) (d : Bool) (res : PGresult) (w : World)
    (hlook : ∀ (t : Nat) (sent : List String),
      (E.reply sent (typname_sql t)).status = ExecStatusType.PGRES_TUPLES_OK →
      0 < (E.reply sent (typname_sql t)).tuples.length ∧
        0 < (E.reply sent (typname_sql t)).fields.length)
    (hn : res.fields ≠ [])
    (hfit : (space_terminated (res.fields.map Field.fname)).length + 1
      ≤ res.fields.length * 33) :
    (prepare_publish E d res w).2.faults = w.faults := by
  have hpos : 0 < res.fields.length := List.length_pos.mpr hn
  have h0 : ("" : String).length = 0 := rfl
  have i1 : ("" : String).length + 1 ≤ res.fields.length * 33 := by omega
  have i2 : ("" : String).length + 1 ≤ res.fields.length * 12 := by omega
  have h := foldl_prepare_column_faults E d res.fields.length hlook res.fields
    { w := { w with g := { w.g with pgstata_num_obs_loaded := 0,
                                    pgstata_num_obs := res.tuples.length } },
      stata_mac_vars := "", stata_mac_types := "", stata_mac_fmts := "",
      column_widths := [], column_oids := [], column_mods := [] }
    (by dsimp only; omega) (by dsimp only; omega) (by dsimp only; omega)
  unfold prepare_publish prepare_columns
  dsimp only at h ⊢
  rw [check_fits_of_le _ _ _ _ i1, check_fits_of_le _ _ _ _ i2, check_fits_of_le _ _ _ _ i2]
  cases d <;> simp [h]


/-- A `pgstata_prepare` that returns ok holds the first page `res`.  When that
page has a column, its names with their spaces and the NUL fit the 33 bytes per
column of `stata_mac_vars`, and every type-name lookup that succeeds has a row,
the call has met no fault and has published, after the row count and the
names, a `_types` string and a `_fmts` string that consist of one
space-terminated entry per column of `res`, in column order, where the entry of
a column is the keyword (resp. format tag) that claim C3's table gives for that
column's wire type and modifier. -/
theorem prepare_types_and_formats (E : Env) (argv : List String) (w : World)
    (h : (pgstata_prepare E argv w).1 = pgstata_ok)
    (hlook : ∀ (t : Nat) (sent : List String),
      (E.reply sent (typname_sql t)).status = ExecStatusType.PGRES_TUPLES_OK →
      0 < (E.reply sent (typname_sql t)).tuples.length ∧
        0 < (E.reply sent (typname_sql t)).fields.length) :
    ∃ res : PGresult,
      (pgstata_prepare E argv w).2.g.pgstata_res = some res ∧
      (res.fields ≠ [] →
        (space_terminated (res.fields.map Field.fname)).length + 1
          ≤ res.fields.length * 33 →
        (pgstata_prepare E argv w).2.faults = w.faults ∧
        (pgstata_prepare E argv w).2.saved = w.saved ++
          [("_obs", toString (res.tuples.length : Int)),
           ("_vars", space_terminated (res.fields.map Field.fname)),
           ("_types", space_terminated
              (res.fields.map fun f => spec_storage_keyword f.ftype f.fmod)),
           ("_fmts", space_terminated (res.fields.map fun f => spec_format_tag f.ftype))]) := by
  obtain ⟨res, w1, d, he, _, hg, _, _, hs, _, hf⟩ := prepare_ok_path E argv w h
  obtain ⟨_, pg, _, _, ps⟩ := prepare_publish_spec E d res w1
  refine ⟨res, ?_, ?_⟩
  · rw [he, pg, hg]
  · intro hn hfit
    refine ⟨?_, ?_⟩
    · rw [he, prepare_publish_faults E d res w1 hlook hn hfit, hf]
    · rw [he, ps, hs]

/-- The scripted session: `BEGIN`, `DECLARE` and `FETCH` succeed, the first
page has the four columns of `demo_fields`, and no fault is met. -/
theorem demo_prepare_no_fault :
    (pgstata_prepare (demo_env [command_ok, command_ok, demo_page]) ["SELECT 1"]
        demo_connected).1 = pgstata_ok ∧
    (pgstata_prepare (demo_env [command_ok, command_ok, demo_page]) ["SELECT 1"]
        demo_connected).2.faults = [] := by
  decide

set_option maxRecDepth 100000 in
/-- C3 (defect): the names go into `stata_mac_vars` by `strcat` with no length
check, and the buffer has 33 bytes per column.  On a page with one boolean
column whose name has 63 chars, the name, the space and the NUL take 65 bytes:
both writes of the loop (the name, then the space) run past the 33 bytes
allocated, and from there on the C text no longer determines what is saved as
`_types` and `_fmts`. -/
theorem C3_long_column_name_overruns :
    demo_long_name_fields.map (fun f => (f.fname.length, f.ftype)) = [(63, BOOLOID)] ∧
    demo_long_name_fields.length * 33 < 63 + 1 + 1 ∧
    (pgstata_prepare (demo_env [command_ok, command_ok, demo_long_name_page]) ["SELECT 1"]
        demo_connected).2.faults
      = [Fault.overrun "stata_mac_vars", Fault.overrun "stata_mac_vars"] := by
  decide

/-- A page without columns: the three buffers are `malloc(0)`, and setting each
to the empty string already writes one byte past it. -/
theorem demo_no_columns_overrun :
    (pgstata_prepare (demo_env [command_ok, command_ok, page [] []]) ["SELECT"]
        demo_connected).2.faults
      = [Fault.overrun "stata_mac_vars", Fault.overrun "stata_mac_types",
         Fault.overrun "stata_mac_fmts"] := by
  decide

/-- What the scripted session publishes, spelled out. -/
theorem demo_prepare_saved :
    (pgstata_prepare (demo_env [command_ok, command_ok, demo_page]) ["SELECT 1"]
        demo_connected).2.saved =
      [("_obs", "2"), ("_vars", "flag code note born "),
       ("_types", "byte str3 str244 long "), ("_fmts", "default default default %d ")] := by
  decide
/-! ## `pgstata_populate_next` -/

/-- The cell switch either stores `cell_call` and returns the host's code, or
(date text that does not parse) reports the failure without storing. -/
theorem populate_cell_eq (E : Env) (oid : Nat) (var obs : Int) (v : CString) (w : World) :
    (∃ c, cell_call E oid var obs v = some c ∧ c.var = var ∧ c.obs = obs ∧
        populate_cell E oid var obs v w
          = (CellResult.stored (E.store_rc w.stores c),
              { w with stores := w.stores ++ [c] })) ∨
    (∃ msg, cell_call E oid var obs v = none ∧
        populate_cell E oid var obs v w = (CellResult.parse_failed, SF_error w msg) ∧
        (oid = DATEOID ∨ oid = TIMESTAMPOID ∨ oid = TIMESTAMPTZOID) ∧
        E.strptime v = none) := by
  unfold cell_call populate_cell
  split_ifs with h1 h2 h3 h4 h5
  · exact Or.inl ⟨_, rfl, rfl, rfl, rfl⟩
  · exact Or.inl ⟨_, rfl, rfl, rfl, rfl⟩
  · exact Or.inl ⟨_, rfl, rfl, rfl, rfl⟩
  · cases hp : E.strptime v with
    | none => exact Or.inr ⟨_, rfl, rfl, h4, rfl⟩
    | some t => exact Or.inl ⟨_, rfl, rfl, rfl, rfl⟩
  · exact Or.inl ⟨_, rfl, rfl, rfl, rfl⟩
  · exact Or.inl ⟨_, rfl, rfl, rfl, rfl⟩

/-- The inner loop changes nothing but the stores and the diagnostics. -/
theorem populate_fields_frame (E : Env) (res : PGresult) (i : Nat) (obs : Int) :
    ∀ (js : List Nat) (w : World),
      (populate_fields E res i obs js w).2.g = w.g ∧
      (populate_fields E res i obs js w).2.sent = w.sent ∧
      (populate_fields E res i obs js w).2.saved = w.saved ∧
      (populate_fields E res i obs js w).2.nobs = w.nobs := by
  intro js
  induction js with
  | nil => intro w; exact ⟨rfl, rfl, rfl, rfl⟩
  | cons j js ih =>
    intro w
    unfold populate_fields
    cases hc : res.cell i j with
    | none => exact ih w
    | some v =>
      dsimp only
      rcases populate_cell_eq E (column_oid w.g j) (1 + j) obs v w with
        ⟨c, _, _, _, he⟩ | ⟨msg, _, he, _, _⟩
      · rw [he]
        dsimp only
        split_ifs
        · exact ⟨rfl, rfl, rfl, rfl⟩
        · exact ih _
      · rw [he]
        exact ⟨rfl, rfl, rfl, rfl⟩

/-- An inner loop that runs to the end has stored exactly `expected_row`, one
store per non-null cell, and changed nothing else. -/
theorem populate_fields_completed (E : Env) (res : PGresult) (i : Nat) (obs : Int) :
    ∀ (js : List Nat) (w : World),
      (populate_fields E res i obs js w).1 = LoopResult.completed →
      (populate_fields E res i obs js w).2
          = { w with stores := w.stores ++ expected_row E w.g res i obs js } ∧
      ∀ j ∈ js, ∀ v, res.cell i j = some v →
        ∃ c, cell_call E (column_oid w.g j) (1 + j) obs v = some c := by
  intro js
  induction js with
  | nil =>
    intro w _
    simp [populate_fields, expected_row]
  | cons j js ih =>
    intro w
    unfold populate_fields
    cases hc : res.cell i j with
    | none =>
      intro h
      obtain ⟨h1, h2⟩ := ih w h
      refine ⟨?_, ?_⟩
      · rw [h1]
        simp [expected_row, hc]
      · intro j' hj' v hv
        rcases List.mem_cons.mp hj' with rfl | hm
        · rw [hc] at hv
          cases hv
        · exact h2 j' hm v hv
    | some v =>
      dsimp only
      rcases populate_cell_eq E (column_oid w.g j) (1 + j) obs v w with
        ⟨c, hcc, _, _, he⟩ | ⟨msg, _, he, _, _⟩
      · rw [he]
        dsimp only
        split_ifs with hrc
        · intro h
          cases h
        · intro h
          obtain ⟨h1, h2⟩ := ih _ h
          refine ⟨?_, ?_⟩
          · rw [h1]
            simp [expected_row, hc, hcc]
          · intro j' hj' v' hv'
            rcases List.mem_cons.mp hj' with rfl | hm
            · rw [hc] at hv'
              cases hv'
              exact ⟨c, hcc⟩
            · exact h2 j' hm v' hv'
      · rw [he]
        intro h
        cases h

/-- The outer loop changes nothing but the stores and the diagnostics. -/
theorem populate_rows_frame (E : Env) (res : PGresult) (nfields : Nat) (loaded : Int) :
    ∀ (is : List Nat) (w : World),
      (populate_rows E res nfields loaded is w).2.g = w.g ∧
      (populate_rows E res nfields loaded is w).2.sent = w.sent ∧
      (populate_rows E res nfields loaded is w).2.saved = w.saved ∧
      (populate_rows E res nfields loaded is w).2.nobs = w.nobs := by
  intro is
  induction is with
  | nil => intro w; exact ⟨rfl, rfl, rfl, rfl⟩
  | cons i is ih =>
    intro w
    unfold populate_rows
    dsimp only
    obtain ⟨f1, f2, f3, f4⟩ :=
      populate_fields_frame E res i (1 + i + loaded) (List.range nfields) w
    split
    · obtain ⟨g1, g2, g3, g4⟩ := ih (populate_fields E res i (1 + ↑i + loaded)
        (List.range nfields) w).2
      exact ⟨g1.trans f1, g2.trans f2, g3.trans f3, g4.trans f4⟩
    · exact ⟨f1, f2, f3, f4⟩

/-- Both loops running to the end store exactly `expected_rows`: every
non-null cell of every row, row by row, and nothing else changes. -/
theorem populate_rows_completed (E : Env) (res : PGresult) (nfields : Nat) (loaded : Int) :
    ∀ (is : List Nat) (w : World),
      (populate_rows E res nfields loaded is w).1 = LoopResult.completed →
      (populate_rows E res nfields loaded is w).2
          = { w with stores := w.stores ++ expected_rows E w.g res nfields loaded is } ∧
      ∀ i ∈ is, ∀ j ∈ List.range nfields, ∀ v, res.cell i j = some v →
        ∃ c, cell_call E (column_oid w.g j) (1 + j) (1 + i + loaded) v = some c := by
  intro is
  induction is with
  | nil =>
    intro w _
    simp [populate_rows, expected_rows]
  | cons i is ih =>
    intro w
    unfold populate_rows
    dsimp only
    split
    · rename_i hdone
      intro h
      obtain ⟨f1, f2⟩ :=
        populate_fields_completed E res i (1 + i + loaded) (List.range nfields) w hdone
      obtain ⟨h1, h2⟩ := ih _ h
      refine ⟨?_, ?_⟩
      · rw [h1, f1]
        simp [expected_rows]
      · intro i' hi' j hj v hv
        rcases List.mem_cons.mp hi' with rfl | hm
        · exact f2 j hj v hv
        · have := h2 i' hm j hj v hv
          rw [f1] at this
          exact this
    · rename_i hne
      intro h
      exact absurd h hne

/-! ### Leaving the function (`CLEANUP:` and after) -/

@[simp] theorem populate_exit_zero_rc (E : Env) (d : Bool) (pending : Int) (w : World) :
    (populate_exit E d 0 pending w).1
      = (if pending ≠ 0 then pgstata_ok else pgstata_finished) := by
  unfold populate_exit
  by_cases hp : pending = 0 <;> simp [hp, pgstata_ok, pgstata_finished]
@[simp] theorem populate_exit_zero_g (E : Env) (d : Bool) (pending : Int) (w : World) :
    (populate_exit E d 0 pending w).2.g = w.g := by
  unfold populate_exit
  by_cases hp : pending = 0 <;> simp [hp, pgstata_ok, pgstata_finished]
@[simp] theorem populate_exit_zero_sent (E : Env) (d : Bool) (pending : Int) (w : World) :
    (populate_exit E d 0 pending w).2.sent = w.sent := by
  unfold populate_exit
  by_cases hp : pending = 0 <;> simp [hp, pgstata_ok, pgstata_finished]
@[simp] theorem populate_exit_zero_stores (E : Env) (d : Bool) (pending : Int) (w : World) :
    (populate_exit E d 0 pending w).2.stores = w.stores := by
  unfold populate_exit
  by_cases hp : pending = 0 <;> simp [hp, pgstata_ok, pgstata_finished]
@[simp] theorem populate_exit_zero_saved (E : Env) (d : Bool) (pending : Int) (w : World) :
    (populate_exit E d 0 pending w).2.saved = w.saved := by
  unfold populate_exit
  by_cases hp : pending = 0 <;> simp [hp, pgstata_ok, pgstata_finished]
@[simp] theorem populate_exit_zero_nobs (E : Env) (d : Bool) (pending : Int) (w : World) :
    (populate_exit E d 0 pending w).2.nobs = w.nobs := by
  unfold populate_exit
  by_cases hp : pending = 0 <;> simp [hp, pgstata_ok, pgstata_finished]

/-- With a nonzero `rc`, `pgstata_cleanup` runs and `rc` is returned unchanged. -/
theorem populate_exit_error (E : Env) (d : Bool) (rc pending : Int) (w : World)
    (hrc : rc ≠ 0) :
    populate_exit E d rc pending w
      = (rc, pgstata_cleanup E d (SF_error w "*error* cleaning up\n")) := by
  unfold populate_exit
  simp [hrc]

/-- After the loops: the FETCH succeeds. -/
theorem populate_advance_fetched (E : Env) (d : Bool) (p : Int) (ntups : Nat) (w : World)
    (hc : w.g.pgstata_conn.isSome = true)
    (hst : (E.reply w.sent (snprintf 255 fetch_sql)).status
      = ExecStatusType.PGRES_TUPLES_OK) :
    (populate_advance E d p ntups w).1
      = (if (E.reply w.sent (snprintf 255 fetch_sql)).tuples.length ≠ 0
          then pgstata_ok else pgstata_finished) ∧
    (populate_advance E d p ntups w).2.g =
      { w.g with
        pgstata_res := some (E.reply w.sent (snprintf 255 fetch_sql)),
        pgstata_num_obs_loaded := w.g.pgstata_num_obs_loaded + ntups,
        pgstata_num_obs := w.g.pgstata_num_obs
          + (E.reply w.sent (snprintf 255 fetch_sql)).tuples.length } ∧
    (populate_advance E d p ntups w).2.sent = w.sent ++ [snprintf 255 fetch_sql] ∧
    (populate_advance E d p ntups w).2.stores = w.stores ∧
    (populate_advance E d p ntups w).2.nobs = w.nobs ∧
    (populate_advance E d p ntups w).2.saved = w.saved ++
      [("_obs", snprintf 32 (toString (w.g.pgstata_num_obs
          + (E.reply w.sent (snprintf 255 fetch_sql)).tuples.length)))] := by
  unfold populate_advance
  dsimp only
  rw [PQexec_connected E _ _ (by simpa using hc)]
  cases d <;> simp [hst, debug_display, SF_display]

/-- After the loops: the FETCH fails. -/
theorem populate_advance_failed (E : Env) (d : Bool) (p : Int) (ntups : Nat) (w : World)
    (hc : w.g.pgstata_conn.isSome = true)
    (hst : (E.reply w.sent (snprintf 255 fetch_sql)).status
      ≠ ExecStatusType.PGRES_TUPLES_OK) :
    (populate_advance E d p ntups w).1 = pgstata_db_error ∧
    (populate_advance E d p ntups w).2.g =
      { pgstata_conn := w.g.pgstata_conn, pgstata_res := none, pgstata_in_transaction := 0,
        pgstata_num_obs_loaded := w.g.pgstata_num_obs_loaded + ntups,
        pgstata_num_obs := w.g.pgstata_num_obs,
        column_oids := none, column_widths := none, column_mods := none } ∧
    (populate_advance E d p ntups w).2.sent =
      (if w.g.pgstata_in_transaction ≠ 0
        then w.sent ++ [snprintf 255 fetch_sql, "ROLLBACK TRANSACTION\n"]
        else w.sent ++ [snprintf 255 fetch_sql]) ∧
    (populate_advance E d p ntups w).2.stores = w.stores ∧
    (populate_advance E d p ntups w).2.nobs = w.nobs ∧
    (populate_advance E d p ntups w).2.saved = w.saved := by
  unfold populate_advance
  dsimp only
  rw [PQexec_connected E _ _ (by simpa using hc)]
  simp only [debug_display_sent, hst, ne_eq, not_false_eq_true, if_true]
  rw [populate_exit_error _ _ _ _ _ (by decide)]
  refine ⟨rfl, ?_, ?_, ?_, ?_, ?_⟩
  · rw [cleanup_g]
    simp
  · rw [cleanup_sent]
    cases d <;> simp [hc, debug_display, SF_display]
  · simp
  · simp
  · simp

theorem populate_exit_stores (E : Env) (d : Bool) (rc pending : Int) (w : World) :
    (populate_exit E d rc pending w).2.stores = w.stores := by
  by_cases hrc : rc = 0
  · subst hrc
    simp
  · rw [populate_exit_error _ _ _ _ _ hrc]
    simp

theorem populate_advance_stores (E : Env) (d : Bool) (p : Int) (ntups : Nat) (w : World) :
    (populate_advance E d p ntups w).2.stores = w.stores := by
  unfold populate_advance
  cases d <;> dsimp only <;> split_ifs <;> rw [populate_exit_stores] <;> simp

/-! ### The whole call -/

/-- A call on a buffered, non-empty page whose loops run to the end continues
with `populate_advance` after storing `expected_rows`. -/
theorem populate_next_completed (E : Env) (p : Int) (argv : List String) (w : World)
    (res : PGresult)
    (hu : usage_bad argv.length 0 1 = false)
    (hc : PQstatus w.g.pgstata_conn = ConnStatusType.CONNECTION_OK)
    (hr : w.g.pgstata_res = some res)
    (hn : res.tuples.length ≠ 0)
    (hdone : (populate_rows E res res.fields.length w.g.pgstata_num_obs_loaded
        (List.range res.tuples.length) w).1 = LoopResult.completed) :
    pgstata_populate_next E p argv w =
      populate_advance E (debug_arg argv 0) p res.tuples.length
        { w with stores := w.stores ++ (expected_rows E w.g res res.fields.length
            w.g.pgstata_num_obs_loaded (List.range res.tuples.length)) } := by
  obtain ⟨hw, _⟩ := populate_rows_completed E res res.fields.length
    w.g.pgstata_num_obs_loaded (List.range res.tuples.length) w hdone
  unfold pgstata_populate_next
  simp only [hu, Bool.false_eq_true, if_false, hc, ne_eq, not_true_eq_false, hr, hn, hdone,
    hw]

/-- A call on a buffered, non-empty page whose loops stop at a date that does
not parse leaves through `populate_exit` with `rc = 0` and the indeterminate
`pending`: no cleanup, and ok or finished is returned. -/
theorem populate_next_parse_failed (E : Env) (p : Int) (argv : List String) (w : World)
    (res : PGresult)
    (hu : usage_bad argv.length 0 1 = false)
    (hc : PQstatus w.g.pgstata_conn = ConnStatusType.CONNECTION_OK)
    (hr : w.g.pgstata_res = some res)
    (hn : res.tuples.length ≠ 0)
    (hfail : (populate_rows E res res.fields.length w.g.pgstata_num_obs_loaded
        (List.range res.tuples.length) w).1 = LoopResult.parse_failed) :
    (pgstata_populate_next E p argv w).1
      = (if p ≠ 0 then pgstata_ok else pgstata_finished) ∧
    (pgstata_populate_next E p argv w).2.g = w.g ∧
    (pgstata_populate_next E p argv w).2.sent = w.sent ∧
    (pgstata_populate_next E p argv w).2.saved = w.saved ∧
    (pgstata_populate_next E p argv w).2.stores
      = (populate_rows E res res.fields.length w.g.pgstata_num_obs_loaded
          (List.range res.tuples.length) w).2.stores := by
  obtain ⟨f1, f2, f3, _⟩ := populate_rows_frame E res res.fields.length
    w.g.pgstata_num_obs_loaded (List.range res.tuples.length) w
  unfold pgstata_populate_next
  simp only [hu, Bool.false_eq_true, if_false, hc, ne_eq, not_true_eq_false, hr, hn, hfail]
  simp [f1, f2, f3]

theorem mem_expected_rows (E : Env) (g : Globals) (res : PGresult) (nfields : Nat)
    (loaded : Int) (is : List Nat) (i j : Nat) (v : CString) (c : HostCall)
    (hi : i ∈ is) (hj : j < nfields) (hv : res.cell i j = some v)
    (hc : cell_call E (column_oid g j) (1 + j) (1 + i + loaded) v = some c) :
    c ∈ expected_rows E g res nfields loaded is := by
  unfold expected_rows expected_row
  rw [List.mem_flatMap]
  refine ⟨i, hi, ?_⟩
  rw [List.mem_filterMap]
  exact ⟨j, List.mem_range.mpr hj, by simp [hv, hc]⟩

/-- A non-null cell lies in a row of the page. -/
theorem cell_row_lt (res : PGresult) (i j : Nat) (v : CString)
    (h : res.cell i j = some v) : i < res.tuples.length := by
  by_contra hlt
  unfold PGresult.cell at h
  rw [List.getD_eq_default _ _ (not_lt.mp hlt)] at h
  simp at h

/-- The entry of `column_oids` for a column, when the array is the one
`pgstata_prepare` builds for the page's field list. -/
theorem column_oid_resolved (g : Globals) (fields : List Field) (j : Nat) (f : Field)
    (ho : g.column_oids = some (resolved_oids fields)) (hf : fields.get? j = some f) :
    column_oid g j = (prepare_switch f.ftype f.fmod).ftype ∧ j < fields.length := by
  obtain ⟨hj, hget⟩ := List.get?_eq_some.mp hf
  refine ⟨?_, hj⟩
  unfold column_oid
  rw [ho]
  simp [resolved_oids, List.getD_eq_getElem?_getD, hj, ← hget]

/-- Every store of `expected_rows` is the store of one non-null cell `(i, j)`
of the page. -/
theorem expected_rows_origin (E : Env) (g : Globals) (res : PGresult) (nfields : Nat)
    (loaded : Int) (is : List Nat) (c : HostCall)
    (hc : c ∈ expected_rows E g res nfields loaded is) :
    ∃ i ∈ is, ∃ j, j < nfields ∧ ∃ v, res.cell i j = some v ∧
      cell_call E (column_oid g j) (1 + j) (1 + i + loaded) v = some c ∧
      c.var = 1 + j ∧ c.obs = 1 + i + loaded := by
  unfold expected_rows expected_row at hc
  rw [List.mem_flatMap] at hc
  obtain ⟨i, hi, hc⟩ := hc
  rw [List.mem_filterMap] at hc
  obtain ⟨j, hj, hc⟩ := hc
  cases hv : res.cell i j with
  | none => simp [hv] at hc
  | some v =>
    rw [hv] at hc
    change cell_call E (column_oid g j) (1 + j) (1 + i + loaded) v = some c at hc
    refine ⟨i, hi, j, List.mem_range.mp hj, v, hv, hc, ?_⟩
    rcases populate_cell_eq E (column_oid g j) (1 + j) (1 + i + loaded) v World.initial with
      ⟨c2, h1, h2, h3, _⟩ | ⟨_, h1, _⟩
    · rw [h1] at hc
      cases hc
      exact ⟨h2, h3⟩
    · rw [h1] at hc
      cases hc

/-- A call whose loops run to the end adds exactly `expected_rows` to the
workspace stores, whatever the FETCH that follows answers. -/
theorem populate_next_stores (E : Env) (p : Int) (argv : List String) (w : World)
    (res : PGresult)
    (hu : usage_bad argv.length 0 1 = false)
    (hc : PQstatus w.g.pgstata_conn = ConnStatusType.CONNECTION_OK)
    (hr : w.g.pgstata_res = some res)
    (hn : res.tuples.length ≠ 0)
    (hdone : (populate_rows E res res.fields.length w.g.pgstata_num_obs_loaded
        (List.range res.tuples.length) w).1 = LoopResult.completed) :
    (pgstata_populate_next E p argv w).2.stores =
      w.stores ++ expected_rows E w.g res res.fields.length w.g.pgstata_num_obs_loaded
        (List.range res.tuples.length) := by
  rw [populate_next_completed E p argv w res hu hc hr hn hdone, populate_advance_stores]

/-- In a call whose loops run to the end, the store `c` of the non-null cell
`(i, j)` is among the stores the call adds, and it is the only one of them at
variable `1 + j` and observation `1 + i + loaded`. -/
theorem populate_next_cell_store (E : Env) (p : Int) (argv : List String) (w : World)
    (res : PGresult) (i j : Nat) (v : CString) (c : HostCall)
    (hu : usage_bad argv.length 0 1 = false)
    (hc : PQstatus w.g.pgstata_conn = ConnStatusType.CONNECTION_OK)
    (hr : w.g.pgstata_res = some res)
    (hdone : (populate_rows E res res.fields.length w.g.pgstata_num_obs_loaded
        (List.range res.tuples.length) w).1 = LoopResult.completed)
    (hj : j < res.fields.length) (hv : res.cell i j = some v)
    (hcc : cell_call E (column_oid w.g j) (1 + j) (1 + i + w.g.pgstata_num_obs_loaded) v
      = some c) :
    ∃ new : List HostCall,
      (pgstata_populate_next E p argv w).2.stores = w.stores ++ new ∧ c ∈ new ∧
      ∀ c2 ∈ new, c2.var = 1 + j → c2.obs = 1 + i + w.g.pgstata_num_obs_loaded → c2 = c := by
  have hi := cell_row_lt res i j v hv
  refine ⟨_, populate_next_stores E p argv w res hu hc hr (by omega) hdone, ?_, ?_⟩
  · exact mem_expected_rows E w.g res _ _ _ i j v c (List.mem_range.mpr hi) hj hv hcc
  · intro c2 h2 hvar hobs
    obtain ⟨i2, _, j2, _, v2, hv2, hc2, hvar2, hobs2⟩ :=
      expected_rows_origin E w.g res _ _ _ c2 h2
    have hjj : j2 = j := by omega
    have hii : i2 = i := by omega
    subst hjj hii
    rw [hv] at hv2
    cases hv2
    rw [hcc] at hc2
    exact (Option.some.inj hc2).symm
/-! ## Claims C4 to C10 -/

/-- The scripted session after `prepare`: a transaction is open, the first page
is buffered and nothing is loaded yet. -/
theorem demo_open_bad_state :
    (demo_open demo_bad_page []).g =
      { pgstata_conn := some demo_conn, pgstata_res := some demo_bad_page,
        pgstata_in_transaction := 1, pgstata_num_obs_loaded := 0, pgstata_num_obs := 2,
        column_oids := some [BOOLOID, VARCHAROID, TEXTOID, DATEOID],
        column_widths := some [1, -1, -1, 4], column_mods := some [-1, 7, -1, -1] } ∧
    (demo_open demo_bad_page []).stores = [] := by
  decide

/-- C4 (defect, the same one as in C8): a call that meets a date it cannot parse
returns ok although it has not stored that cell, and it neither advances
`pgstata_num_obs_loaded` nor releases the page.  On the scripted page (row 2
holds the date text `infinity`) with the indeterminate `pending` nonzero, two
calls in a row both return `pgstata_ok`; together they store row 1 twice at
observation 1, and no call stores anything at observation 2, variable 4. -/
theorem C4_unparsed_date_rows_stored_again :
    (pgstata_populate_next (demo_env [command_ok, command_ok, demo_bad_page]) 1 []
        (demo_open demo_bad_page [])).1 = pgstata_ok ∧
    (pgstata_populate_next (demo_env [command_ok, command_ok, demo_bad_page]) 1 []
        (pgstata_populate_next (demo_env [command_ok, command_ok, demo_bad_page]) 1 []
          (demo_open demo_bad_page [])).2).1 = pgstata_ok ∧
    (pgstata_populate_next (demo_env [command_ok, command_ok, demo_bad_page]) 1 []
        (pgstata_populate_next (demo_env [command_ok, command_ok, demo_bad_page]) 1 []
          (demo_open demo_bad_page [])).2).2.stores =
      [ HostCall.SF_vstore 1 1 (HostValue.ofBool true),
        HostCall.SF_sstore 2 1 "abc".toList,
        HostCall.SF_sstore 3 1 "hello".toList,
        HostCall.SF_vstore 4 1 (HostValue.ofDate 59),
        HostCall.SF_vstore 1 2 (HostValue.ofBool false),
        HostCall.SF_sstore 2 2 "de".toList,
        HostCall.SF_vstore 1 1 (HostValue.ofBool true),
        HostCall.SF_sstore 2 1 "abc".toList,
        HostCall.SF_sstore 3 1 "hello".toList,
        HostCall.SF_vstore 4 1 (HostValue.ofDate 59),
        HostCall.SF_vstore 1 2 (HostValue.ofBool false),
        HostCall.SF_sstore 2 2 "de".toList ] := by
  decide

/-- C5 (defect, the same one as in C8): on the scripted page (two rows, the
second with the date text `infinity`) `pgstata_populate_next` returns
`pgstata_finished` when the indeterminate `pending` is 0, with
`pgstata_num_obs_loaded = 0` and `pgstata_num_obs = 2`; when it is nonzero the
call returns `pgstata_ok` and has not raised `pgstata_num_obs_loaded`. -/
theorem C5_finished_with_rows_not_loaded :
    (pgstata_populate_next (demo_env [command_ok, command_ok, demo_bad_page]) 0 []
        (demo_open demo_bad_page [])).1 = pgstata_finished ∧
    (pgstata_populate_next (demo_env [command_ok, command_ok, demo_bad_page]) 0 []
        (demo_open demo_bad_page [])).2.g.pgstata_num_obs_loaded = 0 ∧
    (pgstata_populate_next (demo_env [command_ok, command_ok, demo_bad_page]) 0 []
        (demo_open demo_bad_page [])).2.g.pgstata_num_obs = 2 ∧
    (pgstata_populate_next (demo_env [command_ok, command_ok, demo_bad_page]) 1 []
        (demo_open demo_bad_page [])).1 = pgstata_ok ∧
    (pgstata_populate_next (demo_env [command_ok, command_ok, demo_bad_page]) 1 []
        (demo_open demo_bad_page [])).2.g.pgstata_num_obs_loaded = 0 := by
  decide

/-- C8 (defect): the date branch leaves by `goto CLEANUP` without setting `rc`.
On the scripted page, whose second row holds the date text `infinity`, for every
value of the indeterminate `pending` the call returns `pgstata_ok` or
`pgstata_finished`, and no cleanup has run: the globals are what they were (the
page is still buffered, the transaction flag is still 1, the column arrays are
still there) and no `ROLLBACK` was sent. -/
theorem C8_unparsed_date_returns_ok_or_finished (p : Int) :
    ((pgstata_populate_next (demo_env [command_ok, command_ok, demo_bad_page]) p []
        (demo_open demo_bad_page [])).1 = pgstata_ok ∨
     (pgstata_populate_next (demo_env [command_ok, command_ok, demo_bad_page]) p []
        (demo_open demo_bad_page [])).1 = pgstata_finished) ∧
    (pgstata_populate_next (demo_env [command_ok, command_ok, demo_bad_page]) p []
        (demo_open demo_bad_page [])).2.g = (demo_open demo_bad_page []).g ∧
    (demo_open demo_bad_page []).g.pgstata_res = some demo_bad_page ∧
    (demo_open demo_bad_page []).g.pgstata_in_transaction = 1 ∧
    (pgstata_populate_next (demo_env [command_ok, command_ok, demo_bad_page]) p []
        (demo_open demo_bad_page [])).2.sent = (demo_open demo_bad_page []).sent ∧
    "ROLLBACK TRANSACTION\n" ∉ (demo_open demo_bad_page []).sent := by
  obtain ⟨h1, h2, h3, _, _⟩ := populate_next_parse_failed
    (demo_env [command_ok, command_ok, demo_bad_page]) p [] (demo_open demo_bad_page [])
    demo_bad_page (by decide) (by decide) (by decide) (by decide) (by decide)
  refine ⟨?_, h2, by decide, by decide, h3, by decide⟩
  rw [h1]
  by_cases hp : p = 0
  · exact Or.inr (by simp [hp])
  · exact Or.inl (by simp [hp])

/-- The type identifiers that the cell switch of `pgstata_populate_next` sends
to its last group, the one that truncates. -/
theorem populate_cell_truncates (E : Env) (oid : Nat) (var obs : Int) (v : CString)
    (w : World)
    (h : oid ≠ INT4OID ∧ oid ≠ INT2OID ∧ oid ≠ INT8OID ∧ oid ≠ FLOAT4OID ∧ oid ≠ FLOAT8OID ∧
      oid ≠ NUMERICOID ∧ oid ≠ BPCHAROID ∧ oid ≠ VARCHAROID ∧ oid ≠ DATEOID ∧
      oid ≠ TIMESTAMPOID ∧ oid ≠ TIMESTAMPTZOID ∧ oid ≠ BOOLOID) :
    populate_cell E oid var obs v w
      = (CellResult.stored (E.store_rc w.stores (HostCall.SF_sstore var obs (v.take 244))),
          { w with stores := w.stores ++ [HostCall.SF_sstore var obs (v.take 244)] }) := by
  obtain ⟨h1, h2, h3, h4, h5, h6, h7, h8, h9, h10, h11, h12⟩ := h
  unfold populate_cell
  simp [h1, h2, h3, h4, h5, h6, h7, h8, h9, h10, h11, h12, host_store]

/-- For a bounded-text column `pgstata_prepare` publishes "str244" and
remembers a type identifier of the truncating group. -/
theorem bounded_text_resolved (ftype : Nat) (fmod : Int) (hb : spec_bounded_text ftype fmod) :
    spec_storage_keyword ftype fmod = "str244" ∧
    ((prepare_switch ftype fmod).ftype ≠ INT4OID ∧ (prepare_switch ftype fmod).ftype ≠ INT2OID ∧
      (prepare_switch ftype fmod).ftype ≠ INT8OID ∧
      (prepare_switch ftype fmod).ftype ≠ FLOAT4OID ∧
      (prepare_switch ftype fmod).ftype ≠ FLOAT8OID ∧
      (prepare_switch ftype fmod).ftype ≠ NUMERICOID ∧
      (prepare_switch ftype fmod).ftype ≠ BPCHAROID ∧
      (prepare_switch ftype fmod).ftype ≠ VARCHAROID ∧
      (prepare_switch ftype fmod).ftype ≠ DATEOID ∧
      (prepare_switch ftype fmod).ftype ≠ TIMESTAMPOID ∧
      (prepare_switch ftype fmod).ftype ≠ TIMESTAMPTZOID ∧
      (prepare_switch ftype fmod).ftype ≠ BOOLOID) := by
  unfold spec_bounded_text recognised_oids at hb
  unfold spec_storage_keyword prepare_switch
  simp only [BOOLOID, INT8OID, INT2OID, INT4OID, TEXTOID, FLOAT4OID, FLOAT8OID, CASHOID,
    BPCHAROID, VARCHAROID, DATEOID, TIMEOID, TIMESTAMPOID, TIMESTAMPTZOID, INTERVALOID,
    TIMETZOID, NUMERICOID, VARHDRSZ, List.mem_cons, List.mem_singleton, List.not_mem_nil,
    or_false] at hb ⊢
  refine ⟨?_, ?_⟩
  · split_ifs <;> first | rfl | (exfalso; omega)
  · split_ifs <;> dsimp only <;> omega

/-! ## Claims C6 and C7: text columns -/

/-- After a `pgstata_prepare` that returns ok the connection is live, the first
page is buffered and `column_oids` holds the resolved type identifier of each
of its columns. -/
theorem prepare_resolves_columns (E : Env) (argv : List String) (w : World)
    (h : (pgstata_prepare E argv w).1 = pgstata_ok) :
    ∃ res : PGresult,
      (pgstata_prepare E argv w).2.g.pgstata_res = some res ∧
      (pgstata_prepare E argv w).2.g.column_oids = some (resolved_oids res.fields) ∧
      PQstatus (pgstata_prepare E argv w).2.g.pgstata_conn = ConnStatusType.CONNECTION_OK ∧
      (pgstata_prepare E argv w).2.g.pgstata_in_transaction = 1 ∧
      (pgstata_prepare E argv w).2.g.pgstata_num_obs_loaded = 0 := by
  obtain ⟨res, w1, d, he, _, hg, hc, _, _, _⟩ := prepare_ok_path E argv w h
  obtain ⟨_, pg, _, _, _⟩ := prepare_publish_spec E d res w1
  refine ⟨res, ?_, ?_, ?_, ?_, ?_⟩ <;> rw [he, pg, hg]
  · rfl
  · exact hc

/-- C6: in a session as `pgstata_prepare` leaves it (`column_oids` resolved from
the page's field list), let column `j` be a bounded-text column in the claim's
sense and `v` the non-null text of cell `(i, j)`.  Then the column was published
as "str244"; the cell switch of `pgstata_populate_next` stores the first 244
characters of `v`, which are `min (length v) 244` characters, its outcome is the
host's return code and it changes nothing but the record of stores (no error
message); and a call whose loops run to the end has added that store at
variable `j + 1`, observation `loaded + i + 1`, and no other store there. -/
theorem C6_bounded_text_truncated (E : Env) (p : Int) (argv : List String) (w : World)
    (res : PGresult) (i j : Nat) (f : Field) (v : CString)
    (hu : usage_bad argv.length 0 1 = false)
    (hc : PQstatus w.g.pgstata_conn = ConnStatusType.CONNECTION_OK)
    (hr : w.g.pgstata_res = some res)
    (ho : w.g.column_oids = some (resolved_oids res.fields))
    (hf : res.fields.get? j = some f)
    (hb : spec_bounded_text f.ftype f.fmod)
    (hv : res.cell i j = some v)
    (hdone : (populate_rows E res res.fields.length w.g.pgstata_num_obs_loaded
        (List.range res.tuples.length) w).1 = LoopResult.completed) :
    spec_storage_keyword f.ftype f.fmod = "str244" ∧
    (∀ (var obs : Int) (w2 : World),
      populate_cell E (column_oid w.g j) var obs v w2
        = (CellResult.stored (E.store_rc w2.stores (HostCall.SF_sstore var obs (v.take 244))),
            { w2 with stores := w2.stores ++ [HostCall.SF_sstore var obs (v.take 244)] })) ∧
    (v.take 244).length = min v.length 244 ∧
    ∃ new : List HostCall,
      (pgstata_populate_next E p argv w).2.stores = w.stores ++ new ∧
      HostCall.SF_sstore (1 + j) (1 + i + w.g.pgstata_num_obs_loaded) (v.take 244) ∈ new ∧
      ∀ c ∈ new, c.var = 1 + j → c.obs = 1 + i + w.g.pgstata_num_obs_loaded →
        c = HostCall.SF_sstore (1 + j) (1 + i + w.g.pgstata_num_obs_loaded) (v.take 244) := by
  obtain ⟨hk, hne⟩ := bounded_text_resolved f.ftype f.fmod hb
  obtain ⟨hoid, hj⟩ := column_oid_resolved w.g res.fields j f ho hf
  rw [← hoid] at hne
  have hcell := fun var obs w2 => populate_cell_truncates E (column_oid w.g j) var obs v w2 hne
  refine ⟨hk, hcell, ?_, ?_⟩
  · rw [List.length_take, Nat.min_comm]
  · refine populate_next_cell_store E p argv w res i j v _ hu hc hr hdone hj hv ?_
    unfold cell_call
    rw [hcell]
    rfl

set_option maxRecDepth 100000 in
/-- C6 on a text column holding 300 characters. -/
theorem C6_bounded_text_truncated_witness :
    usage_bad ([] : List String).length 0 1 = false ∧
    spec_bounded_text TEXTOID (-1) ∧
    (List.replicate 300 'x').length = 300 ∧
    (spec_storage_keyword TEXTOID (-1) = "str244" ∧
    (∀ (var obs : Int) (w2 : World),
      populate_cell (demo_env [command_ok, command_ok, demo_text_page, page demo_text_fields []])
          (column_oid (demo_open demo_text_page [page demo_text_fields []]).g 0) var obs
          (List.replicate 300 'x') w2
        = (CellResult.stored ((demo_env [command_ok, command_ok, demo_text_page,
              page demo_text_fields []]).store_rc w2.stores
              (HostCall.SF_sstore var obs ((List.replicate 300 'x').take 244))),
            { w2 with stores := w2.stores
                ++ [HostCall.SF_sstore var obs ((List.replicate 300 'x').take 244)] })) ∧
    ((List.replicate 300 'x').take 244).length = min (List.replicate 300 'x').length 244 ∧
    ∃ new : List HostCall,
      (pgstata_populate_next
          (demo_env [command_ok, command_ok, demo_text_page, page demo_text_fields []]) 0 []
          (demo_open demo_text_page [page demo_text_fields []])).2.stores
        = (demo_open demo_text_page [page demo_text_fields []]).stores ++ new ∧
      HostCall.SF_sstore (1 + (0 : Nat))
          (1 + (0 : Nat) + (demo_open demo_text_page [page demo_text_fields []]).g.pgstata_num_obs_loaded)
          ((List.replicate 300 'x').take 244) ∈ new ∧
      ∀ c ∈ new, c.var = 1 + (0 : Nat) →
        c.obs = 1 + (0 : Nat)
          + (demo_open demo_text_page [page demo_text_fields []]).g.pgstata_num_obs_loaded →
        c = HostCall.SF_sstore (1 + (0 : Nat))
          (1 + (0 : Nat) + (demo_open demo_text_page [page demo_text_fields []]).g.pgstata_num_obs_loaded)
          ((List.replicate 300 'x').take 244)) :=
  ⟨by decide, by decide, by decide,
    C6_bounded_text_truncated
      (demo_env [command_ok, command_ok, demo_text_page, page demo_text_fields []]) 0 []
      (demo_open demo_text_page [page demo_text_fields []]) demo_text_page 0 0
      { fname := "t", ftype := TEXTOID, fsize := -1, fmod := -1 } (List.replicate 300 'x')
      (by decide) (by decide) (by decide) (by decide) (by decide) (by decide) (by decide)
      (by decide)⟩

set_option maxRecDepth 100000 in
/-- The scripted text column, spelled out: the call stores the first 244 of the
300 characters at variable 1, observation 1, shows no message and, the next
page being empty, returns `pgstata_finished`. -/
theorem demo_text_truncated :
    (pgstata_populate_next
        (demo_env [command_ok, command_ok, demo_text_page, page demo_text_fields []]) 0 []
        (demo_open demo_text_page [page demo_text_fields []])).1 = pgstata_finished ∧
    (pgstata_populate_next
        (demo_env [command_ok, command_ok, demo_text_page, page demo_text_fields []]) 0 []
        (demo_open demo_text_page [page demo_text_fields []])).2.stores
      = [HostCall.SF_sstore 1 1 (List.replicate 244 'x')] ∧
    (pgstata_populate_next
        (demo_env [command_ok, command_ok, demo_text_page, page demo_text_fields []]) 0 []
        (demo_open demo_text_page [page demo_text_fields []])).2.diag = [] := by
  decide

/-- The type identifiers of the group of the cell switch that passes the wire
value on as it is. -/
theorem populate_cell_as_is (E : Env) (oid : Nat) (var obs : Int) (v : CString) (w : World)
    (h : oid = BPCHAROID ∨ oid = VARCHAROID) :
    populate_cell E oid var obs v w
      = (CellResult.stored (E.store_rc w.stores (HostCall.SF_sstore var obs v)),
          { w with stores := w.stores ++ [HostCall.SF_sstore var obs v] }) := by
  unfold populate_cell
  rcases h with h | h <;> subst h <;>
    simp [host_store, INT4OID, INT2OID, INT8OID, FLOAT4OID, FLOAT8OID, NUMERICOID, BPCHAROID,
      VARCHAROID]

/-- For a fixed-width-string column `pgstata_prepare` publishes "str" followed
by the width and remembers the column's own type identifier. -/
theorem fixed_width_resolved (ftype : Nat) (fmod W : Int)
    (hb : spec_fixed_width ftype fmod W) :
    spec_storage_keyword ftype fmod = "str" ++ toString W ∧
    (prepare_switch ftype fmod).ftype = ftype ∧ (ftype = BPCHAROID ∨ ftype = VARCHAROID) := by
  obtain ⟨ht, h0, hW, h1⟩ := hb
  subst hW
  refine ⟨?_, ?_, ht⟩
  · unfold spec_storage_keyword
    rcases ht with ht | ht <;> subst ht <;>
      simp [BOOLOID, INT2OID, INT4OID, INT8OID, FLOAT4OID, FLOAT8OID, NUMERICOID, BPCHAROID,
        VARCHAROID, h0, h1]
  · unfold prepare_switch
    rcases ht with ht | ht <;> subst ht <;>
      simp [BOOLOID, INT2OID, INT4OID, INT8OID, FLOAT4OID, FLOAT8OID, NUMERICOID, BPCHAROID,
        VARCHAROID, h0, h1]

/-- C7 as stated fails: a `varchar(1)` column (published as "str1") whose one
cell is the single character U+00E9, which a UTF-8 server sends as the two
chars C3 A9.  `pgstata_populate_next` passes both to the string store: the
string has length 2, which is not at most the width 1. -/
theorem C7_string_longer_than_width :
    spec_fixed_width VARCHAROID 5 1 ∧
    (demo_open demo_char1_page [page demo_char1_fields []]).saved
      = [("_obs", "1"), ("_vars", "c "), ("_types", "str1 "), ("_fmts", "default ")] ∧
    (demo_open demo_char1_page [page demo_char1_fields []]).g.pgstata_res
      = some demo_char1_page ∧
    demo_char1_page.cell 0 0 = some [Char.ofNat 195, Char.ofNat 169] ∧
    (pgstata_populate_next
        (demo_env [command_ok, command_ok, demo_char1_page, page demo_char1_fields []]) 0 []
        (demo_open demo_char1_page [page demo_char1_fields []])).2.stores
      = [HostCall.SF_sstore 1 1 [Char.ofNat 195, Char.ofNat 169]] ∧
    ¬ (([Char.ofNat 195, Char.ofNat 169].length : Int) ≤ 1) := by
  decide

/-- C7, amended: in a session as `pgstata_prepare` leaves it, let column `j` be
a fixed-width-string column of width `W` and `v` the non-null text of cell
`(i, j)`.  Then the column was published as "strW"; the cell switch of
`pgstata_populate_next` passes `v` itself to the string store, whole, whatever
its length; a call whose loops run to the end has added that store at variable
`j + 1`, observation `loaded + i + 1`, and no other store there.  The string
stored is therefore as long as the wire value: at most `W` long exactly when
the server sent at most `W` chars. -/
theorem C7_fixed_width_passed_as_is (E : Env) (p : Int) (argv : List String) (w : World)
    (res : PGresult) (i j : Nat) (f : Field) (W : Int) (v : CString)
    (hu : usage_bad argv.length 0 1 = false)
    (hc : PQstatus w.g.pgstata_conn = ConnStatusType.CONNECTION_OK)
    (hr : w.g.pgstata_res = some res)
    (ho : w.g.column_oids = some (resolved_oids res.fields))
    (hf : res.fields.get? j = some f)
    (hb : spec_fixed_width f.ftype f.fmod W)
    (hv : res.cell i j = some v)
    (hdone : (populate_rows E res res.fields.length w.g.pgstata_num_obs_loaded
        (List.range res.tuples.length) w).1 = LoopResult.completed) :
    spec_storage_keyword f.ftype f.fmod = "str" ++ toString W ∧
    (∀ (var obs : Int) (w2 : World),
      populate_cell E (column_oid w.g j) var obs v w2
        = (CellResult.stored (E.store_rc w2.stores (HostCall.SF_sstore var obs v)),
            { w2 with stores := w2.stores ++ [HostCall.SF_sstore var obs v] })) ∧
    ∃ new : List HostCall,
      (pgstata_populate_next E p argv w).2.stores = w.stores ++ new ∧
      HostCall.SF_sstore (1 + j) (1 + i + w.g.pgstata_num_obs_loaded) v ∈ new ∧
      ∀ c ∈ new, c.var = 1 + j → c.obs = 1 + i + w.g.pgstata_num_obs_loaded →
        c = HostCall.SF_sstore (1 + j) (1 + i + w.g.pgstata_num_obs_loaded) v := by
  obtain ⟨hk, hsame, hty⟩ := fixed_width_resolved f.ftype f.fmod W hb
  obtain ⟨hoid, hj⟩ := column_oid_resolved w.g res.fields j f ho hf
  rw [hsame] at hoid
  rw [← hoid] at hty
  have hcell := fun var obs w2 => populate_cell_as_is E (column_oid w.g j) var obs v w2 hty
  refine ⟨hk, hcell, ?_⟩
  refine populate_next_cell_store E p argv w res i j v _ hu hc hr hdone hj hv ?_
  unfold cell_call
  rw [hcell]
  rfl

/-- C7 (amended) on the scripted page: the `varchar(3)` column `code` of
`demo_page`, row 1, holds "abc". -/
theorem C7_fixed_width_passed_as_is_witness :
    spec_fixed_width VARCHAROID 7 3 ∧
    demo_page.cell 0 1 = some "abc".toList ∧
    (spec_storage_keyword VARCHAROID 7 = "str" ++ toString (3 : Int) ∧
    (∀ (var obs : Int) (w2 : World),
      populate_cell (demo_env [command_ok, command_ok, demo_page, page demo_fields []])
          (column_oid (demo_open demo_page [page demo_fields []]).g 1) var obs "abc".toList w2
        = (CellResult.stored ((demo_env [command_ok, command_ok, demo_page,
              page demo_fields []]).store_rc w2.stores
              (HostCall.SF_sstore var obs "abc".toList)),
            { w2 with stores := w2.stores ++ [HostCall.SF_sstore var obs "abc".toList] })) ∧
    ∃ new : List HostCall,
      (pgstata_populate_next
          (demo_env [command_ok, command_ok, demo_page, page demo_fields []]) 0 []
          (demo_open demo_page [page demo_fields []])).2.stores
        = (demo_open demo_page [page demo_fields []]).stores ++ new ∧
      HostCall.SF_sstore (1 + (1 : Nat))
          (1 + (0 : Nat) + (demo_open demo_page [page demo_fields []]).g.pgstata_num_obs_loaded)
          "abc".toList ∈ new ∧
      ∀ c ∈ new, c.var = 1 + (1 : Nat) →
        c.obs = 1 + (0 : Nat)
          + (demo_open demo_page [page demo_fields []]).g.pgstata_num_obs_loaded →
        c = HostCall.SF_sstore (1 + (1 : Nat))
          (1 + (0 : Nat) + (demo_open demo_page [page demo_fields []]).g.pgstata_num_obs_loaded)
          "abc".toList) :=
  ⟨by decide, by decide,
    C7_fixed_width_passed_as_is
      (demo_env [command_ok, command_ok, demo_page, page demo_fields []]) 0 []
      (demo_open demo_page [page demo_fields []]) demo_page 0 1
      { fname := "code", ftype := VARCHAROID, fsize := -1, fmod := 7 } 3 "abc".toList
      (by decide) (by decide) (by decide) (by decide) (by decide) (by decide) (by decide)
      (by decide)⟩

/-! ## Claims C9 and C10: failure of the FETCH, and `disconnect` -/

/-- A call whose loops run to the end and whose FETCH succeeds: the return code
says whether the next page has rows, `pgstata_num_obs_loaded` has grown by the
rows of the page consumed, `pgstata_num_obs` by the rows of the page fetched,
and the new total is published as `_obs`. -/
theorem populate_next_fetched (E : Env) (p : Int) (argv : List String) (w : World)
    (res : PGresult)
    (hu : usage_bad argv.length 0 1 = false)
    (hc : PQstatus w.g.pgstata_conn = ConnStatusType.CONNECTION_OK)
    (hr : w.g.pgstata_res = some res)
    (hn : res.tuples.length ≠ 0)
    (hdone : (populate_rows E res res.fields.length w.g.pgstata_num_obs_loaded
        (List.range res.tuples.length) w).1 = LoopResult.completed)
    (hst : (E.reply w.sent (snprintf 255 fetch_sql)).status
      = ExecStatusType.PGRES_TUPLES_OK) :
    (pgstata_populate_next E p argv w).1
      = (if (E.reply w.sent (snprintf 255 fetch_sql)).tuples.length ≠ 0
          then pgstata_ok else pgstata_finished) ∧
    (pgstata_populate_next E p argv w).2.g =
      { w.g with
        pgstata_res := some (E.reply w.sent (snprintf 255 fetch_sql)),
        pgstata_num_obs_loaded := w.g.pgstata_num_obs_loaded + res.tuples.length,
        pgstata_num_obs := w.g.pgstata_num_obs
          + (E.reply w.sent (snprintf 255 fetch_sql)).tuples.length } ∧
    (pgstata_populate_next E p argv w).2.sent = w.sent ++ [snprintf 255 fetch_sql] ∧
    (pgstata_populate_next E p argv w).2.saved = w.saved ++
      [("_obs", snprintf 32 (toString (w.g.pgstata_num_obs
          + (E.reply w.sent (snprintf 255 fetch_sql)).tuples.length)))] := by
  rw [populate_next_completed E p argv w res hu hc hr hn hdone]
  obtain ⟨h1, h2, h3, _, _, h6⟩ := populate_advance_fetched E (debug_arg argv 0) p
    res.tuples.length
    { w with stores := w.stores ++ (expected_rows E w.g res res.fields.length
        w.g.pgstata_num_obs_loaded (List.range res.tuples.length)) }
    (isSome_of_PQstatus_ok _ hc) hst
  exact ⟨h1, h2, h3, h6⟩

/-- C9: `pgstata_populate_next` is called with a live connection, a non-empty
page buffered and the transaction marked active; its loops run to the end and
the server answers the FETCH that follows with a status other than tuples-ok.
Then the call returns `pgstata_db_error`, which is 200; what it has sent is the
FETCH followed by one `ROLLBACK TRANSACTION`; the transaction flag is 0, the
page and the three column arrays are released, and the connection handle is the
one the call started with, still reporting `CONNECTION_OK`. -/
theorem C9_failed_fetch_leaves_connected_idle (E : Env) (p : Int) (argv : List String)
    (w : World) (res : PGresult)
    (hu : usage_bad argv.length 0 1 = false)
    (hc : PQstatus w.g.pgstata_conn = ConnStatusType.CONNECTION_OK)
    (hr : w.g.pgstata_res = some res)
    (hn : res.tuples.length ≠ 0)
    (ht : w.g.pgstata_in_transaction ≠ 0)
    (hdone : (populate_rows E res res.fields.length w.g.pgstata_num_obs_loaded
        (List.range res.tuples.length) w).1 = LoopResult.completed)
    (hst : (E.reply w.sent (snprintf 255 fetch_sql)).status
      ≠ ExecStatusType.PGRES_TUPLES_OK) :
    (pgstata_populate_next E p argv w).1 = pgstata_db_error ∧ pgstata_db_error = 200 ∧
    (pgstata_populate_next E p argv w).2.sent
      = w.sent ++ [snprintf 255 fetch_sql, "ROLLBACK TRANSACTION\n"] ∧
    (pgstata_populate_next E p argv w).2.g.pgstata_in_transaction = 0 ∧
    (pgstata_populate_next E p argv w).2.g.pgstata_res = none ∧
    (pgstata_populate_next E p argv w).2.g.column_oids = none ∧
    (pgstata_populate_next E p argv w).2.g.column_widths = none ∧
    (pgstata_populate_next E p argv w).2.g.column_mods = none ∧
    (pgstata_populate_next E p argv w).2.g.pgstata_conn = w.g.pgstata_conn ∧
    PQstatus (pgstata_populate_next E p argv w).2.g.pgstata_conn
      = ConnStatusType.CONNECTION_OK := by
  rw [populate_next_completed E p argv w res hu hc hr hn hdone]
  obtain ⟨h1, h2, h3, _, _, _⟩ := populate_advance_failed E (debug_arg argv 0) p
    res.tuples.length
    { w with stores := w.stores ++ (expected_rows E w.g res res.fields.length
        w.g.pgstata_num_obs_loaded (List.range res.tuples.length)) }
    (isSome_of_PQstatus_ok _ hc) hst
  rw [h1, h2, h3]
  refine ⟨rfl, rfl, ?_, rfl, rfl, rfl, rfl, rfl, rfl, hc⟩
  simp [ht]

/-- C9 on the scripted session: the first page is `demo_page`, and the server
fails the next FETCH. -/
theorem C9_failed_fetch_leaves_connected_idle_witness :
    (demo_open demo_page [fatal_error, command_ok]).g.pgstata_in_transaction ≠ 0 ∧
    ((demo_env [command_ok, command_ok, demo_page, fatal_error, command_ok]).reply
        (demo_open demo_page [fatal_error, command_ok]).sent (snprintf 255 fetch_sql)).status
      ≠ ExecStatusType.PGRES_TUPLES_OK ∧
    ((pgstata_populate_next
        (demo_env [command_ok, command_ok, demo_page, fatal_error, command_ok]) 0 []
        (demo_open demo_page [fatal_error, command_ok])).1 = pgstata_db_error ∧
    pgstata_db_error = 200 ∧
    (pgstata_populate_next
        (demo_env [command_ok, command_ok, demo_page, fatal_error, command_ok]) 0 []
        (demo_open demo_page [fatal_error, command_ok])).2.sent
      = (demo_open demo_page [fatal_error, command_ok]).sent
        ++ [snprintf 255 fetch_sql, "ROLLBACK TRANSACTION\n"] ∧
    (pgstata_populate_next
        (demo_env [command_ok, command_ok, demo_page, fatal_error, command_ok]) 0 []
        (demo_open demo_page [fatal_error, command_ok])).2.g.pgstata_in_transaction = 0 ∧
    (pgstata_populate_next
        (demo_env [command_ok, command_ok, demo_page, fatal_error, command_ok]) 0 []
        (demo_open demo_page [fatal_error, command_ok])).2.g.pgstata_res = none ∧
    (pgstata_populate_next
        (demo_env [command_ok, command_ok, demo_page, fatal_error, command_ok]) 0 []
        (demo_open demo_page [fatal_error, command_ok])).2.g.column_oids = none ∧
    (pgstata_populate_next
        (demo_env [command_ok, command_ok, demo_page, fatal_error, command_ok]) 0 []
        (demo_open demo_page [fatal_error, command_ok])).2.g.column_widths = none ∧
    (pgstata_populate_next
        (demo_env [command_ok, command_ok, demo_page, fatal_error, command_ok]) 0 []
        (demo_open demo_page [fatal_error, command_ok])).2.g.column_mods = none ∧
    (pgstata_populate_next
        (demo_env [command_ok, command_ok, demo_page, fatal_error, command_ok]) 0 []
        (demo_open demo_page [fatal_error, command_ok])).2.g.pgstata_conn
      = (demo_open demo_page [fatal_error, command_ok]).g.pgstata_conn ∧
    PQstatus (pgstata_populate_next
        (demo_env [command_ok, command_ok, demo_page, fatal_error, command_ok]) 0 []
        (demo_open demo_page [fatal_error, command_ok])).2.g.pgstata_conn
      = ConnStatusType.CONNECTION_OK) :=
  ⟨by decide, by decide,
    C9_failed_fetch_leaves_connected_idle
      (demo_env [command_ok, command_ok, demo_page, fatal_error, command_ok]) 0 []
      (demo_open demo_page [fatal_error, command_ok]) demo_page
      (by decide) (by decide) (by decide) (by decide) (by decide) (by decide) (by decide)⟩

/-- The scripted failure of the FETCH, spelled out: the statements sent in the
whole session and the globals at the end. -/
theorem demo_failed_fetch :
    (pgstata_populate_next
        (demo_env [command_ok, command_ok, demo_page, fatal_error, command_ok]) 0 []
        (demo_open demo_page [fatal_error, command_ok])).2.sent
      = ["BEGIN TRANSACTION\n", "DECLARE pgstata_cursor CURSOR FOR SELECT 1\n",
         "FETCH FORWARD 10000 FROM pgstata_cursor\n",
         "FETCH FORWARD 10000 FROM pgstata_cursor\n", "ROLLBACK TRANSACTION\n"] ∧
    (pgstata_populate_next
        (demo_env [command_ok, command_ok, demo_page, fatal_error, command_ok]) 0 []
        (demo_open demo_page [fatal_error, command_ok])).2.g
      = { pgstata_conn := some demo_conn, pgstata_res := none, pgstata_in_transaction := 0,
          pgstata_num_obs_loaded := 2, pgstata_num_obs := 2,
          column_oids := none, column_widths := none, column_mods := none } := by
  decide

/-- With no connection, no page, no column arrays and no transaction,
`pgstata_teardown` does nothing at all. -/
theorem teardown_idle (E : Env) (d : Bool) (w : World)
    (hconn : w.g.pgstata_conn = none) (hres : w.g.pgstata_res = none)
    (ht : w.g.pgstata_in_transaction = 0) (ho : w.g.column_oids = none)
    (hw : w.g.column_widths = none) (hm : w.g.column_mods = none) :
    pgstata_teardown E d w = w := by
  unfold pgstata_teardown
  dsimp only
  rw [cleanup_idle E d w hres ht ho hw hm]
  simp [hconn]

/-- With at most one argument the usage check of `disconnect` passes. -/
theorem disconnect_usage (argv : List String) (h : argv.length ≤ 1) :
    usage_bad argv.length 0 1 = false := by
  unfold usage_bad
  have h1 : ¬ ((argv.length : Int) < 0) := by omega
  have h2 : ¬ ((argv.length : Int) > 1) := by omega
  simp [h1, h2]

/-- C10: `pgstata_disconnect` with at most one argument, from any state `w` and
with any database `E`, returns `pgstata_ok` and leaves no connection, no page,
no column arrays and the transaction flag 0.  A further `disconnect` right
after it (with any arguments of that form, any database) returns
`pgstata_ok` and leaves the whole record as it is: no global changes and
nothing is sent.  The same holds for a `disconnect` in the state of a plugin
that never connected (the globals at their initial values). -/
theorem C10_disconnect_ok_and_idempotent (E : Env) (argv : List String) (w : World)
    (h : argv.length ≤ 1) :
    (pgstata_disconnect E argv w).1 = pgstata_ok ∧ pgstata_ok = 0 ∧
    (pgstata_disconnect E argv w).2.g.pgstata_conn = none ∧
    (pgstata_disconnect E argv w).2.g.pgstata_res = none ∧
    (pgstata_disconnect E argv w).2.g.column_oids = none ∧
    (pgstata_disconnect E argv w).2.g.column_widths = none ∧
    (pgstata_disconnect E argv w).2.g.column_mods = none ∧
    (pgstata_disconnect E argv w).2.g.pgstata_in_transaction = 0 ∧
    (∀ (E2 : Env) (argv2 : List String), argv2.length ≤ 1 →
      pgstata_disconnect E2 argv2 (pgstata_disconnect E argv w).2
        = (pgstata_ok, (pgstata_disconnect E argv w).2)) ∧
    (w.g = Globals.initial → pgstata_disconnect E argv w = (pgstata_ok, w)) := by
  have hd : ∀ (E1 : Env) (a : List String) (w1 : World), a.length ≤ 1 →
      pgstata_disconnect E1 a w1 = (pgstata_ok, pgstata_teardown E1 (debug_arg a 0) w1) := by
    intro E1 a w1 ha
    unfold pgstata_disconnect
    simp [disconnect_usage a ha]
  have hg := teardown_g E (debug_arg argv 0) w
  rw [hd E argv w h]
  dsimp only
  refine ⟨rfl, rfl, ?_, ?_, ?_, ?_, ?_, ?_, ?_, ?_⟩
  · rw [hg]
  · rw [hg]
  · rw [hg]
  · rw [hg]
  · rw [hg]
  · rw [hg]
  · intro E2 argv2 h2
    rw [hd E2 argv2 _ h2]
    rw [teardown_idle E2 _ _ (by rw [hg]) (by rw [hg]) (by rw [hg]) (by rw [hg]) (by rw [hg])
      (by rw [hg])]
  · intro hi
    rw [teardown_idle E _ w (by rw [hi]; rfl) (by rw [hi]; rfl) (by rw [hi]; rfl)
      (by rw [hi]; rfl) (by rw [hi]; rfl) (by rw [hi]; rfl)]

/-- C10 on the scripted session with a query open: `disconnect` rolls the
transaction back and drops everything; the server's answer to the `ROLLBACK`
is an error here. -/
theorem C10_disconnect_ok_and_idempotent_witness :
    ([] : List String).length ≤ 1 ∧
    ((pgstata_disconnect (demo_env [command_ok, command_ok, demo_page]) []
        (demo_open demo_page [])).1 = pgstata_ok ∧ pgstata_ok = 0 ∧
    (pgstata_disconnect (demo_env [command_ok, command_ok, demo_page]) []
        (demo_open demo_page [])).2.g.pgstata_conn = none ∧
    (pgstata_disconnect (demo_env [command_ok, command_ok, demo_page]) []
        (demo_open demo_page [])).2.g.pgstata_res = none ∧
    (pgstata_disconnect (demo_env [command_ok, command_ok, demo_page]) []
        (demo_open demo_page [])).2.g.column_oids = none ∧
    (pgstata_disconnect (demo_env [command_ok, command_ok, demo_page]) []
        (demo_open demo_page [])).2.g.column_widths = none ∧
    (pgstata_disconnect (demo_env [command_ok, command_ok, demo_page]) []
        (demo_open demo_page [])).2.g.column_mods = none ∧
    (pgstata_disconnect (demo_env [command_ok, command_ok, demo_page]) []
        (demo_open demo_page [])).2.g.pgstata_in_transaction = 0 ∧
    (∀ (E2 : Env) (argv2 : List String), argv2.length ≤ 1 →
      pgstata_disconnect E2 argv2
          (pgstata_disconnect (demo_env [command_ok, command_ok, demo_page]) []
            (demo_open demo_page [])).2
        = (pgstata_ok, (pgstata_disconnect (demo_env [command_ok, command_ok, demo_page]) []
            (demo_open demo_page [])).2)) ∧
    ((demo_open demo_page []).g = Globals.initial →
      pgstata_disconnect (demo_env [command_ok, command_ok, demo_page]) []
          (demo_open demo_page [])
        = (pgstata_ok, demo_open demo_page []))) :=
  ⟨by decide,
    C10_disconnect_ok_and_idempotent (demo_env [command_ok, command_ok, demo_page]) []
      (demo_open demo_page []) (by decide)⟩

/-- The scripted `disconnect`, spelled out: with a query open it sends one
`ROLLBACK`; a second `disconnect`, and a `disconnect` of a plugin that never
connected, send nothing and change nothing. -/
theorem demo_disconnect :
    (pgstata_disconnect (demo_env [command_ok, command_ok, demo_page]) []
        (demo_open demo_page [])).2.sent
      = (demo_open demo_page []).sent ++ ["ROLLBACK TRANSACTION\n"] ∧
    (pgstata_disconnect (demo_env [command_ok, command_ok, demo_page]) []
        (demo_open demo_page [])).2.g
      = { Globals.initial with pgstata_num_obs := 2 } ∧
    pgstata_disconnect (demo_env [command_ok, command_ok, demo_page]) ["debug"]
        (pgstata_disconnect (demo_env [command_ok, command_ok, demo_page]) []
          (demo_open demo_page [])).2
      = (pgstata_ok, (pgstata_disconnect (demo_env [command_ok, command_ok, demo_page]) []
          (demo_open demo_page [])).2) ∧
    pgstata_disconnect (demo_env []) ["debug"] World.initial = (pgstata_ok, World.initial) := by
  decide

/-! ## Claims C11 and C12: what a teardown resets, and the order of operations -/

/-- `pgstata_teardown` leaves both row counters as they are. -/
theorem teardown_counters (E : Env) (d : Bool) (w : World) :
    (pgstata_teardown E d w).g.pgstata_num_obs_loaded = w.g.pgstata_num_obs_loaded ∧
    (pgstata_teardown E d w).g.pgstata_num_obs = w.g.pgstata_num_obs ∧
    (pgstata_teardown E d w).g.pgstata_in_transaction = 0 ∧
    (pgstata_teardown E d w).g.column_oids = none ∧
    (pgstata_teardown E d w).g.column_widths = none ∧
    (pgstata_teardown E d w).g.column_mods = none := by
  rw [teardown_g]
  exact ⟨rfl, rfl, rfl, rfl, rfl, rfl⟩

/-- C11 (defect): `pgstata_cleanup`, and with it `pgstata_teardown`, never
assigns the two row counters.  In the scripted session `prepare` fetches the two
rows of `demo_page`, `populate_next` loads them and finds the next page empty,
and `disconnect` follows: the teardown has released the column arrays and
cleared the transaction flag, but `pgstata_num_obs_loaded` and
`pgstata_num_obs` are both still 2. -/
theorem C11_counters_survive_teardown :
    (pgstata_populate_next
        (demo_env [command_ok, command_ok, demo_page, page demo_fields [], command_ok]) 0 []
        (demo_open demo_page [page demo_fields [], command_ok])).1 = pgstata_finished ∧
    (pgstata_disconnect
        (demo_env [command_ok, command_ok, demo_page, page demo_fields [], command_ok]) []
        (pgstata_populate_next
          (demo_env [command_ok, command_ok, demo_page, page demo_fields [], command_ok]) 0 []
          (demo_open demo_page [page demo_fields [], command_ok])).2)
      = (pgstata_ok,
          { g := { pgstata_conn := none, pgstata_res := none, pgstata_in_transaction := 0,
                   pgstata_num_obs_loaded := 2, pgstata_num_obs := 2,
                   column_oids := none, column_widths := none, column_mods := none },
            sent := ["BEGIN TRANSACTION\n", "DECLARE pgstata_cursor CURSOR FOR SELECT 1\n",
              "FETCH FORWARD 10000 FROM pgstata_cursor\n",
              "FETCH FORWARD 10000 FROM pgstata_cursor\n", "ROLLBACK TRANSACTION\n"],
            nobs := 0,
            stores := [ HostCall.SF_vstore 1 1 (HostValue.ofBool true),
              HostCall.SF_sstore 2 1 "abc".toList,
              HostCall.SF_sstore 3 1 "hello".toList,
              HostCall.SF_vstore 4 1 (HostValue.ofDate 59),
              HostCall.SF_vstore 1 2 (HostValue.ofBool false),
              HostCall.SF_sstore 2 2 "de".toList,
              HostCall.SF_vstore 4 2 (HostValue.ofDate 14670) ],
            saved := [("_obs", "2"), ("_vars", "flag code note born "),
              ("_types", "byte str3 str244 long "), ("_fmts", "default default default %d "),
              ("_obs", "2")],
            diag := [], faults := [] }) := by
  decide

/-! ### Statements are only ever appended -/

theorem PQexec_sent_grows (E : Env) (w : World) (s : String) :
    w.sent <+: (PQexec E w s).2.sent := by
  unfold PQexec
  split
  · exact List.prefix_refl _
  · exact List.prefix_append _ _

theorem cleanup_sent_grows (E : Env) (d : Bool) (w : World) :
    w.sent <+: (pgstata_cleanup E d w).sent := by
  rw [cleanup_sent]
  split_ifs
  · exact List.prefix_append _ _
  · exact List.prefix_refl _

theorem typoid2name_sent_grows (E : Env) (t n : Nat) (d : Bool) (w : World) :
    w.sent <+: (pgstata_typoid2name E t n d w).2.sent := by
  have h := PQexec_sent_grows E (debug_display d w (typname_sql t)) (typname_sql t)
  rw [debug_display_sent] at h
  unfold pgstata_typoid2name
  dsimp only
  split_ifs
  · simpa using h
  · exact h
  · simpa using h

theorem prepare_column_sent_grows (E : Env) (d : Bool) (n : Nat) (a : PrepareLoop)
    (f : Field) : a.w.sent <+: (prepare_column E d n a f).w.sent := by
  have h := typoid2name_sent_grows E (prepare_switch f.ftype f.fmod).ftype 255 d
    (check_fits (check_fits a.w "stata_mac_vars" (n * 33) (a.stata_mac_vars ++ f.fname))
      "stata_mac_vars" (n * 33) (a.stata_mac_vars ++ f.fname ++ " "))
  simp only [check_fits_sent] at h
  unfold prepare_column
  simp only [strcat_text, strcat_world, debug_display_sent, check_fits_sent]
  split_ifs
  · simpa using h
  · simp

theorem foldl_prepare_column_sent_grows (E : Env) (d : Bool) (n : Nat) (fs : List Field) :
    ∀ a : PrepareLoop, a.w.sent <+: (fs.foldl (prepare_column E d n) a).w.sent := by
  induction fs with
  | nil => intro a; exact List.prefix_refl _
  | cons f fs ih =>
    intro a
    exact (prepare_column_sent_grows E d n a f).trans (ih _)

theorem prepare_publish_sent_grows (E : Env) (d : Bool) (res : PGresult) (w : World) :
    w.sent <+: (prepare_publish E d res w).2.sent := by
  have h := foldl_prepare_column_sent_grows E d res.fields.length res.fields
    { w := check_fits (check_fits (check_fits
        { w with g := { w.g with pgstata_num_obs_loaded := 0,
                                 pgstata_num_obs := res.tuples.length } }
        "stata_mac_vars" (res.fields.length * 33) "")
        "stata_mac_types" (res.fields.length * 12) "")
        "stata_mac_fmts" (res.fields.length * 12) "",
      stata_mac_vars := "", stata_mac_types := "", stata_mac_fmts := "",
      column_widths := [], column_oids := [], column_mods := [] }
  unfold prepare_publish prepare_columns
  dsimp only at h ⊢
  cases d <;> simpa using h

/-- Once past its checks, `pgstata_prepare` sends `BEGIN TRANSACTION` before
anything else. -/
theorem prepare_sends_begin (E : Env) (argv : List String) (w : World)
    (hu : usage_bad argv.length 1 2 = false)
    (hc : PQstatus w.g.pgstata_conn = ConnStatusType.CONNECTION_OK)
    (hn : w.nobs = 0) :
    (w.sent ++ ["BEGIN TRANSACTION\n"]) <+: (pgstata_prepare E argv w).2.sent := by
  have hs := isSome_of_PQstatus_ok _ hc
  have hb : ∀ d : Bool, (PQexec E (debug_display d w "BEGIN TRANSACTION\n")
      "BEGIN TRANSACTION\n").2.sent = w.sent ++ ["BEGIN TRANSACTION\n"] := by
    intro d
    rw [PQexec_connected E _ _ (by simpa using hs)]
    simp
  unfold pgstata_prepare
  simp only [hu, Bool.false_eq_true, if_false, hc, ne_eq, not_true_eq_false, hn]
  split_ifs with h1 h2 h3
  · refine List.IsPrefix.trans ?_ (prepare_publish_sent_grows E _ _ _)
    dsimp only
    refine List.IsPrefix.trans ?_ (PQexec_sent_grows E _ _)
    rw [debug_display_sent]
    refine List.IsPrefix.trans ?_ (PQexec_sent_grows E _ _)
    rw [debug_display_sent]
    dsimp only
    rw [hb]
  · dsimp only
    refine List.IsPrefix.trans ?_ (cleanup_sent_grows E _ _)
    dsimp only
    rw [SF_error_sent]
    dsimp only
    refine List.IsPrefix.trans ?_ (PQexec_sent_grows E _ _)
    rw [debug_display_sent]
    refine List.IsPrefix.trans ?_ (PQexec_sent_grows E _ _)
    rw [debug_display_sent]
    dsimp only
    rw [hb]
  · unfold pgresult_check_fail
    dsimp only
    refine List.IsPrefix.trans ?_ (cleanup_sent_grows E _ _)
    rw [SF_error_sent]
    refine List.IsPrefix.trans ?_ (PQexec_sent_grows E _ _)
    rw [debug_display_sent]
    dsimp only
    rw [hb]
  · unfold pgresult_check_fail
    dsimp only
    refine List.IsPrefix.trans ?_ (cleanup_sent_grows E _ _)
    rw [SF_error_sent, hb]

/-! ### No page means no open query -/

theorem cleanup_idle_without_page (E : Env) (d : Bool) (w : World) :
    idle_without_page (pgstata_cleanup E d w).g := by
  intro _
  rw [cleanup_g]
  exact ⟨rfl, rfl, rfl, rfl⟩

theorem teardown_idle_without_page (E : Env) (d : Bool) (w : World) :
    idle_without_page (pgstata_teardown E d w).g := by
  intro _
  rw [teardown_g]
  exact ⟨rfl, rfl, rfl, rfl⟩

theorem populate_exit_idle_without_page (E : Env) (d : Bool) (rc pending : Int) (w : World)
    (h : idle_without_page w.g) : idle_without_page (populate_exit E d rc pending w).2.g := by
  by_cases hrc : rc = 0
  · subst hrc
    rw [populate_exit_zero_g]
    exact h
  · rw [populate_exit_error _ _ _ _ _ hrc]
    exact cleanup_idle_without_page E d _

/-- `pgstata_disconnect` keeps the invariant. -/
theorem disconnect_idle_without_page (E : Env) (argv : List String) (w : World)
    (h : idle_without_page w.g) : idle_without_page (pgstata_disconnect E argv w).2.g := by
  unfold pgstata_disconnect
  split_ifs
  · exact h
  · exact teardown_idle_without_page E _ w

theorem idle_without_page_conn (g : Globals) (c : Option PGconn)
    (h : idle_without_page g) : idle_without_page { g with pgstata_conn := c } :=
  fun hn => h hn

/-- `pgstata_connect` keeps the invariant. -/
theorem connect_idle_without_page (E : Env) (argv : List String) (w : World)
    (h : idle_without_page w.g) : idle_without_page (pgstata_connect E argv w).2.g := by
  unfold pgstata_connect
  dsimp only
  split_ifs <;>
    first
    | exact h
    | exact teardown_idle_without_page E _ _
    | (rw [debug_display_g]
       exact idle_without_page_conn _ _ (teardown_idle_without_page E _ _))
    | (rw [debug_display_g]
       exact idle_without_page_conn _ _ h)

/-- `pgstata_prepare` keeps the invariant. -/
theorem prepare_idle_without_page (E : Env) (argv : List String) (w : World)
    (h : idle_without_page w.g) : idle_without_page (pgstata_prepare E argv w).2.g := by
  by_cases hok : (pgstata_prepare E argv w).1 = pgstata_ok
  · obtain ⟨res, hres, _⟩ := prepare_resolves_columns E argv w hok
    intro hnone
    rw [hres] at hnone
    cases hnone
  · unfold pgstata_prepare at hok ⊢
    dsimp only at hok ⊢
    split_ifs at hok ⊢ with h1 h2 h3 h4 h5 h6
    · exact h
    · exact teardown_idle_without_page E _ _
    · exact h
    · exact cleanup_idle_without_page E _ _
    · exact cleanup_idle_without_page E _ _
    · exact cleanup_idle_without_page E _ _
    · exact absurd (prepare_publish_spec E _ _ _).1 hok

/-- `pgstata_populate_next` keeps the invariant. -/
theorem populate_next_idle_without_page (E : Env) (p : Int) (argv : List String) (w : World)
    (h : idle_without_page w.g) :
    idle_without_page (pgstata_populate_next E p argv w).2.g := by
  unfold pgstata_populate_next
  dsimp only
  split_ifs with h1 h2
  · exact h
  · exact teardown_idle_without_page E _ _
  · have hc := not_not.mp h2
    cases hr : w.g.pgstata_res with
    | none => exact cleanup_idle_without_page E _ _
    | some res =>
      dsimp only
      split_ifs with h3
      · exact h
      · obtain ⟨f1, _, _, _⟩ := populate_rows_frame E res res.fields.length
          w.g.pgstata_num_obs_loaded (List.range res.tuples.length) w
        have hi : idle_without_page (populate_rows E res res.fields.length
            w.g.pgstata_num_obs_loaded (List.range res.tuples.length) w).2.g := by
          rw [f1]
          exact h
        have hconn : (populate_rows E res res.fields.length
            w.g.pgstata_num_obs_loaded (List.range res.tuples.length) w).2.g.pgstata_conn.isSome
            = true := by
          rw [f1]
          exact isSome_of_PQstatus_ok _ hc
        split
        · exact populate_exit_idle_without_page E _ _ _ _ hi
        · exact populate_exit_idle_without_page E _ _ _ _ hi
        · by_cases hst : (E.reply (populate_rows E res res.fields.length
              w.g.pgstata_num_obs_loaded (List.range res.tuples.length) w).2.sent
              (snprintf 255 fetch_sql)).status = ExecStatusType.PGRES_TUPLES_OK
          · obtain ⟨_, hg, _⟩ := populate_advance_fetched E (debug_arg argv 0) p
              res.tuples.length _ hconn hst
            intro hnone
            rw [hg] at hnone
            cases hnone
          · obtain ⟨_, hg, _⟩ := populate_advance_failed E (debug_arg argv 0) p
              res.tuples.length _ hconn hst
            intro _
            rw [hg]
            exact ⟨rfl, rfl, rfl, rfl⟩

/-- The plugin starts inside the invariant. -/
theorem initial_idle_without_page : idle_without_page Globals.initial :=
  fun _ => ⟨rfl, rfl, rfl, rfl⟩

/-- C12 as stated fails in its second half: `pgstata_prepare` does not look at
whether a query is open.  In the scripted session a page is buffered and the
transaction is active (and the workspace is still empty) when `prepare` is
called again; the server accepts the second `BEGIN` and refuses the `DECLARE`
(the cursor exists).  The call has sent three statements, and the page and the
column arrays of the open query are gone. -/
theorem C12_prepare_on_open_query_sends :
    (demo_open demo_page [command_ok, fatal_error, command_ok]).g.pgstata_res
      = some demo_page ∧
    (demo_open demo_page [command_ok, fatal_error, command_ok]).g.pgstata_in_transaction = 1 ∧
    (demo_open demo_page [command_ok, fatal_error, command_ok]).g.column_oids
      = some [BOOLOID, VARCHAROID, TEXTOID, DATEOID] ∧
    (pgstata_prepare
        (demo_env [command_ok, command_ok, demo_page, command_ok, fatal_error, command_ok])
        ["SELECT 2"] (demo_open demo_page [command_ok, fatal_error, command_ok])).1
      = pgstata_db_error ∧
    (pgstata_prepare
        (demo_env [command_ok, command_ok, demo_page, command_ok, fatal_error, command_ok])
        ["SELECT 2"] (demo_open demo_page [command_ok, fatal_error, command_ok])).2.sent
      = (demo_open demo_page [command_ok, fatal_error, command_ok]).sent ++
        ["BEGIN TRANSACTION\n", "DECLARE pgstata_cursor CURSOR FOR SELECT 2\n",
         "ROLLBACK TRANSACTION\n"] ∧
    (pgstata_prepare
        (demo_env [command_ok, command_ok, demo_page, command_ok, fatal_error, command_ok])
        ["SELECT 2"] (demo_open demo_page [command_ok, fatal_error, command_ok])).2.g.pgstata_res
      = none ∧
    (pgstata_prepare
        (demo_env [command_ok, command_ok, demo_page, command_ok, fatal_error, command_ok])
        ["SELECT 2"] (demo_open demo_page [command_ok, fatal_error, command_ok])).2.g.column_oids
      = none := by
  decide

/-- C12, amended.  On a live connection:
`pgstata_populate_next` (at most one argument) called with no page, in a state
inside the invariant `idle_without_page` (the initial state is, and all four
operations keep it), returns `pgstata_usage_error` (198) and changes nothing
but the messages shown;
`pgstata_prepare` (one or two arguments) called while the workspace holds
observations returns 4 and likewise changes nothing but the messages shown, so
it sends no statement and keeps page, column arrays and counters;
and called with an empty workspace it sends `BEGIN TRANSACTION` as its next
statement, whether or not a query is open. -/
theorem C12_phase_checks (E : Env) (w : World)
    (hc : PQstatus w.g.pgstata_conn = ConnStatusType.CONNECTION_OK) :
    (∀ (p : Int) (argv : List String), argv.length ≤ 1 →
      w.g.pgstata_res = none → idle_without_page w.g →
      pgstata_populate_next E p argv w
        = (pgstata_usage_error,
            SF_error w "Must call \"prepare\" before calling \"populate_next\"\n") ∧
      pgstata_usage_error = 198) ∧
    (∀ argv : List String, usage_bad argv.length 1 2 = false → w.nobs ≠ 0 →
      pgstata_prepare E argv w = (4, SF_error w "no; data in memory would be lost\n")) ∧
    (∀ argv : List String, usage_bad argv.length 1 2 = false → w.nobs = 0 →
      (w.sent ++ ["BEGIN TRANSACTION\n"]) <+: (pgstata_prepare E argv w).2.sent) := by
  refine ⟨?_, ?_, ?_⟩
  · intro p argv ha hres hi
    obtain ⟨ht, ho, hw, hm⟩ := hi hres
    refine ⟨?_, rfl⟩
    unfold pgstata_populate_next
    simp only [disconnect_usage argv ha, Bool.false_eq_true, if_false, hc, ne_eq,
      not_true_eq_false, hres]
    rw [cleanup_idle E _ _ (by simpa using hres) (by simpa using ht) (by simpa using ho)
      (by simpa using hw) (by simpa using hm)]
  · intro argv hu hn
    unfold pgstata_prepare
    simp only [hu, Bool.false_eq_true, if_false, hc, ne_eq, not_true_eq_false, hn,
      not_false_eq_true, if_true]
  · intro argv hu hn
    exact prepare_sends_begin E argv w hu hc hn

/-- C12 (amended) on the scripted session: `populate_next` right after
`connect`; `prepare` on an open query with two observations in the workspace;
and `prepare` on the same open query with the workspace empty. -/
theorem C12_phase_checks_witness :
    PQstatus demo_connected.g.pgstata_conn = ConnStatusType.CONNECTION_OK ∧
    (pgstata_populate_next (demo_env []) 0 [] demo_connected
        = (pgstata_usage_error,
            SF_error demo_connected "Must call \"prepare\" before calling \"populate_next\"\n") ∧
      pgstata_usage_error = 198) ∧
    pgstata_prepare (demo_env [command_ok, command_ok, demo_page]) ["SELECT 2"]
        { demo_open demo_page [] with nobs := 2 }
      = (4, SF_error { demo_open demo_page [] with nobs := 2 }
          "no; data in memory would be lost\n") ∧
    ((demo_open demo_page [command_ok, fatal_error, command_ok]).sent
        ++ ["BEGIN TRANSACTION\n"]) <+:
      (pgstata_prepare
        (demo_env [command_ok, command_ok, demo_page, command_ok, fatal_error, command_ok])
        ["SELECT 2"] (demo_open demo_page [command_ok, fatal_error, command_ok])).2.sent :=
  ⟨by decide,
    (C12_phase_checks (demo_env []) demo_connected (by decide)).1 0 [] (by decide) (by decide)
      (fun _ => by decide),
    (C12_phase_checks (demo_env [command_ok, command_ok, demo_page])
      { demo_open demo_page [] with nobs := 2 } (by decide)).2.1 ["SELECT 2"] (by decide)
      (by decide),
    (C12_phase_checks
      (demo_env [command_ok, command_ok, demo_page, command_ok, fatal_error, command_ok])
      (demo_open demo_page [command_ok, fatal_error, command_ok]) (by decide)).2.2 ["SELECT 2"]
      (by decide) (by decide)⟩
end PgStata
